import Mathlib

/-!
# cheat-cli: the Cloudflare worker `worker.js`

A shallow embedding of `src/worker.js` and the properties of its HTTP contract.

The worker is JavaScript, so the embedding has three layers:

* the values `JSON.parse` can return, and the ECMAScript operations the worker applies to them
  (property reads, truthiness, `ToString`, `ToNumber`, comparison, `slice`, `JSON.stringify`);
  strings are sequences of UTF-16 code units and numbers are IEEE 754 doubles, given by their
  exact value `±mant × 2^exp`;
* the part of the Fetch API the worker uses (`new Response`, the upstream `fetch`), with the
  console as a list of log entries and the upstream as a function from request to result;
* the worker itself: `handleGet`, `handlePost` and the `fetch` handler.

Error messages are those of V8 and of the Workers runtime.
-/

namespace CheatCli

/-! ## Strings -/

/-- A UTF-16 code unit. -/
abbrev CodeUnit := Fin 65536

/-- A JavaScript string: a sequence of UTF-16 code units, surrogates paired or not. -/
abbrev JSString := List CodeUnit

/-- The code units of a character: one for the Basic Multilingual Plane, a surrogate pair
beyond. -/
def utf16Char (c : Char) : List CodeUnit :=
  if c.toNat < 65536 then [Fin.ofNat c.toNat]
  else
    [Fin.ofNat (55296 + (c.toNat - 65536) / 1024), Fin.ofNat (56320 + (c.toNat - 65536) % 1024)]

/-- The JavaScript string of a text, as a string literal of the source denotes it. -/
def utf16 (s : String) : JSString := s.data.foldr (fun c acc => utf16Char c ++ acc) []

instance : Coe String JSString := ⟨utf16⟩

/-- The leading surrogates, `0xD800` to `0xDBFF`. -/
def isHighSurrogate (u : CodeUnit) : Bool := 55296 ≤ u.val && u.val ≤ 56319

/-- The trailing surrogates, `0xDC00` to `0xDFFF`. -/
def isLowSurrogate (u : CodeUnit) : Bool := 56320 ≤ u.val && u.val ≤ 57343

/-- The scalar values of a string: a surrogate pair is one character, an unpaired surrogate is
replaced by `U+FFFD`. -/
def usvChars : JSString → List Char
  | [] => []
  | u :: rest =>
    if isHighSurrogate u then
      match rest with
      | v :: rest2 =>
        if isLowSurrogate v then
          Char.ofNat (65536 + (u.val - 55296) * 1024 + (v.val - 56320)) :: usvChars rest2
        else Char.ofNat 65533 :: usvChars (v :: rest2)
      | [] => [Char.ofNat 65533]
    else if isLowSurrogate u then Char.ofNat 65533 :: usvChars rest
    else Char.ofNat u.val :: usvChars rest

/-- The conversion of a string to a `USVString`, the text that a `Response` body or a console
line carries. -/
def toUSV (s : JSString) : String := ⟨usvChars s⟩

/-! ## Numbers -/

/-- A Number value: `NaN`, an infinity, or a finite double, given by its value `±mant × 2^exp`
(both zeros are `mant = 0`).  A double has many such forms and all of them behave alike; a
value `±mant × 2^exp` that no double has stands for the double nearest to it
(`JSNumber.normal`), the Number that a numeric literal of that value denotes. -/
inductive JSNumber where
  | nan
  | inf (neg : Bool)
  | fin (neg : Bool) (mant : Nat) (exp : Int)
deriving DecidableEq, Repr

/-- The Number value of a natural number, such as a length. -/
def JSNumber.ofNat (n : Nat) : JSNumber := .fin false n 0

/-- The `k` with `2^k ≤ num/den < 2^(k+1)`, from the lengths of the binary numerals. -/
def binaryExponent (num den : Nat) : Int :=
  let k0 : Int := ((Nat.toDigits 2 num).length : Int) - ((Nat.toDigits 2 den).length : Int)
  let below : Bool :=
    if 0 ≤ k0 then decide (num < den * 2 ^ k0.toNat) else decide (num * 2 ^ (-k0).toNat < den)
  if below then k0 - 1 else k0

/-- The multiple of `2^e` nearest to `±num/den`, ties to the even multiple; an infinity beyond
the largest double. -/
def roundAt (neg : Bool) (num den : Nat) (e : Int) : JSNumber :=
  let n := if e < 0 then num * 2 ^ (-e).toNat else num
  let d := if e < 0 then den else den * 2 ^ e.toNat
  let q := n / d
  let r := n % d
  let m := if d < 2 * r ∨ (2 * r = d ∧ q % 2 = 1) then q + 1 else q
  if 971 < e ∨ (e = 971 ∧ 2 ^ 53 ≤ m) then .inf neg else .fin neg m e

/-- The Number value for the fraction `±num/den`: the nearest double, ties to the even
significand, an infinity beyond the largest double.  The significand has 53 bits, fewer below
`2^-1022`.  An integer below `2^53` is its own value. -/
def roundRat (neg : Bool) (num den : Nat) : JSNumber :=
  if num = 0 ∨ den = 0 then .fin neg 0 0
  else if den = 1 ∧ num < 2 ^ 53 then .fin neg num 0
  else roundAt neg num den (max (binaryExponent num den - 52) (-1074))

/-- The magnitude `mant × 2^exp` as a fraction. -/
def fraction (mant : Nat) (exp : Int) : Nat × Nat :=
  if 0 ≤ exp then (mant * 2 ^ exp.toNat, 1) else (mant, 2 ^ (-exp).toNat)

/-- The double a value stands for: the value itself if it is one. -/
def JSNumber.normal : JSNumber → JSNumber
  | .fin neg mant exp => roundRat neg (fraction mant exp).1 (fraction mant exp).2
  | x => x

/-- Whether two values are the same number, signs of zero apart. -/
def sameValue : JSNumber → JSNumber → Bool
  | .fin n1 m1 e1, .fin n2 m2 e2 =>
    (fraction m1 e1).1 * (fraction m2 e2).2 == (fraction m2 e2).1 * (fraction m1 e1).2 &&
      (n1 == n2 || m1 == 0)
  | .inf n1, .inf n2 => n1 == n2
  | _, _ => false

/-- The least `n` from `n` on with `num/den < 10^n`. -/
def exponentUp (num den : Nat) : Nat → Nat → Nat
  | 0, n => n
  | fuel + 1, n => if num < den * 10 ^ n then n else exponentUp num den fuel (n + 1)

/-- The least `j` from `j` on with `10^(-j-1) ≤ num/den`. -/
def exponentDown (num den : Nat) : Nat → Nat → Nat
  | 0, j => j
  | fuel + 1, j => if den ≤ num * 10 ^ (j + 1) then j else exponentDown num den fuel (j + 1)

/-- The `n` with `10^(n-1) ≤ num/den < 10^n`. -/
def decimalExponent (num den : Nat) : Int :=
  if den ≤ num then (exponentUp num den 400 1 : Int) else - (exponentDown num den 400 0 : Int)

/-- Step 5 of `Number::toString`: the digits `s` and the exponent `n`, with the number of
digits `k` of `s` as small as possible such that `s × 10^(n-k)` is the number; of two such `s`
the closer one, then the even one. -/
def shortest (mant : Nat) (exp : Int) (n : Int) : Nat → Nat → Nat × Int
  | 0, _ => (0, n)
  | fuel + 1, k =>
    let x := fraction mant exp
    let sh : Int := (k : Int) - n
    let yn := if 0 ≤ sh then x.1 * 10 ^ sh.toNat else x.1
    let yd := if 0 ≤ sh then x.2 else x.2 * 10 ^ (-sh).toNat
    let lo := yn / yd
    let hi := lo + 1
    let value (s : Nat) : JSNumber :=
      if 0 ≤ sh then roundRat false s (10 ^ sh.toNat) else roundRat false (s * 10 ^ (-sh).toNat) 1
    let okLo := decide (10 ^ (k - 1) ≤ lo) && sameValue (value lo) (.fin false mant exp)
    let okHi := sameValue (value hi) (.fin false mant exp)
    let hiPair : Nat × Int := if hi = 10 ^ k then (10 ^ (k - 1), n + 1) else (hi, n)
    if okLo && okHi then
      if 2 * yn < (lo + hi) * yd then (lo, n)
      else if (lo + hi) * yd < 2 * yn then hiPair
      else if lo % 2 = 0 then (lo, n) else hiPair
    else if okLo then (lo, n)
    else if okHi then hiPair
    else shortest mant exp n fuel (k + 1)

/-- `Number::toString` in radix 10. -/
def numberToString (x : JSNumber) : String :=
  match x.normal with
  | .nan => "NaN"
  | .inf neg => if neg then "-Infinity" else "Infinity"
  | .fin neg mant exp =>
    if mant = 0 then "0"
    else
      let x := fraction mant exp
      let sn := shortest mant exp (decimalExponent x.1 x.2) 17 1
      let digits := Nat.toDigits 10 sn.1
      let k : Int := digits.length
      let n := sn.2
      let body : List Char :=
        if k ≤ n ∧ n ≤ 21 then digits ++ List.replicate (n - k).toNat '0'
        else if 0 < n ∧ n ≤ 21 then digits.take n.toNat ++ ['.'] ++ digits.drop n.toNat
        else if -6 < n ∧ n ≤ 0 then ['0', '.'] ++ List.replicate (-n).toNat '0' ++ digits
        else
          let expChars :=
            (if n - 1 < 0 then ['e', '-'] else ['e', '+']) ++ Nat.toDigits 10 (n - 1).natAbs
          if k = 1 then digits ++ expChars
          else digits.take 1 ++ ['.'] ++ digits.drop 1 ++ expChars
      ⟨(if neg then ['-'] else []) ++ body⟩

/-- The code units of `StrWhiteSpaceChar`: white space and line terminators. -/
def isStrWhiteSpace (u : CodeUnit) : Bool :=
  [9, 10, 11, 12, 13, 32, 160, 5760, 8232, 8233, 8239, 8287, 12288, 65279].contains u.val
    || (8192 ≤ u.val && u.val ≤ 8202)

/-- The decimal digits `0` to `9`. -/
def isDigit (u : CodeUnit) : Bool := 48 ≤ u.val && u.val ≤ 57

/-- The value of a run of decimal digits. -/
def digitsValue (ds : List CodeUnit) : Nat := ds.foldl (fun acc u => 10 * acc + (u.val - 48)) 0

/-- The value of a digit in a radix up to 16, letters in either case. -/
def radixDigit (radix : Nat) (u : CodeUnit) : Option Nat :=
  let v : Option Nat :=
    if 48 ≤ u.val ∧ u.val ≤ 57 then some (u.val - 48)
    else if 97 ≤ u.val ∧ u.val ≤ 102 then some (u.val - 87)
    else if 65 ≤ u.val ∧ u.val ≤ 70 then some (u.val - 55)
    else none
  v.filter (· < radix)

/-- The value of a non-empty run of digits of the radix. -/
def radixValue (radix : Nat) : List CodeUnit → Option Nat
  | [] => none
  | ds => ds.foldl (fun acc u => acc.bind fun a => (radixDigit radix u).map fun d => radix * a + d)
      (some 0)

/-- An `ExponentPart` or nothing: the exponent. -/
def exponentPart : List CodeUnit → Option Int
  | [] => some 0
  | e :: rest =>
    if e.val = 101 ∨ e.val = 69 then
      match rest with
      | [] => none
      | s :: ds =>
        if s.val = 45 then
          if ds ≠ [] ∧ ds.all isDigit then some (- (digitsValue ds : Int)) else none
        else if s.val = 43 then
          if ds ≠ [] ∧ ds.all isDigit then some (digitsValue ds : Int) else none
        else if (s :: ds).all isDigit then some (digitsValue (s :: ds) : Int) else none
    else none

/-- A `StrUnsignedDecimalLiteral` other than `Infinity`: digits with an optional fraction and
exponent. -/
def unsignedDecimal (neg : Bool) (units : List CodeUnit) : JSNumber :=
  let ip := units.takeWhile isDigit
  let r1 := units.dropWhile isDigit
  let dotted : Bool := match r1 with
    | d :: _ => d.val = 46
    | [] => false
  let fp := if dotted then (r1.drop 1).takeWhile isDigit else []
  let r2 := if dotted then (r1.drop 1).dropWhile isDigit else r1
  if ip = [] ∧ fp = [] then .nan
  else
    match exponentPart r2 with
    | none => .nan
    | some e =>
      let shift : Int := e - fp.length
      if 0 ≤ shift then roundRat neg (digitsValue (ip ++ fp) * 10 ^ shift.toNat) 1
      else roundRat neg (digitsValue (ip ++ fp)) (10 ^ (-shift).toNat)

/-- ECMAScript `StringToNumber`. -/
def stringToNumber (s : JSString) : JSNumber :=
  let t := ((s.dropWhile isStrWhiteSpace).reverse.dropWhile isStrWhiteSpace).reverse
  let radix (r : Nat) (ds : List CodeUnit) : JSNumber :=
    match radixValue r ds with
    | some n => roundRat false n 1
    | none => .nan
  match t with
  | [] => .fin false 0 0
  | c :: rest =>
    let prefixed : Option JSNumber :=
      match rest with
      | p :: ds =>
        if c.val = 48 ∧ (p.val = 120 ∨ p.val = 88) then some (radix 16 ds)
        else if c.val = 48 ∧ (p.val = 111 ∨ p.val = 79) then some (radix 8 ds)
        else if c.val = 48 ∧ (p.val = 98 ∨ p.val = 66) then some (radix 2 ds)
        else none
      | [] => none
    match prefixed with
    | some x => x
    | none =>
      let neg : Bool := c.val = 45
      let body := if c.val = 45 ∨ c.val = 43 then rest else t
      if body = utf16 "Infinity" then .inf neg else unsignedDecimal neg body

/-- The subtraction `x - 1`. -/
def JSNumber.minusOne (x : JSNumber) : JSNumber :=
  match x.normal with
  | .nan => .nan
  | .inf neg => .inf neg
  | .fin neg mant exp =>
    let x := fraction mant exp
    if neg then roundRat true (x.1 + x.2) x.2
    else if x.2 ≤ x.1 then roundRat false (x.1 - x.2) x.2
    else roundRat true (x.2 - x.1) x.2

/-- The comparison `x > k` with a natural number `k`. -/
def JSNumber.greaterThan (x : JSNumber) (k : Nat) : Bool :=
  match x.normal with
  | .nan => false
  | .inf neg => !neg
  | .fin neg mant exp =>
    !neg && decide (k * (fraction mant exp).2 < (fraction mant exp).1)

/-- The natural number a value is, if it is one: the element index it names. -/
def JSNumber.toIndex (x : JSNumber) : Option Nat :=
  match x.normal with
  | .nan => none
  | .inf _ => none
  | .fin neg mant exp =>
    if mant = 0 then some 0
    else if neg then none
    else if (fraction mant exp).1 % (fraction mant exp).2 = 0 then
      some ((fraction mant exp).1 / (fraction mant exp).2)
    else none

/-- `ToBoolean` of a number: the zeros and `NaN` are falsy. -/
def JSNumber.truthy (x : JSNumber) : Bool :=
  match x.normal with
  | .nan => false
  | .inf _ => true
  | .fin _ mant _ => mant != 0

/-! ## JavaScript values -/

/-- The values reachable from `JSON.parse`, together with `undefined`, which property reads on
them produce.  An object lists its own properties, keys distinct, in the order of their
creation (for a parsed object, the order of the members in the text); a lookup takes the first
entry with the key. -/
inductive JSValue where
  | undefined
  | null
  | bool (b : Bool)
  | num (x : JSNumber)
  | str (s : JSString)
  | arr (items : List JSValue)
  | obj (props : List (JSString × JSValue))

/-- A thrown `Error`: its constructor name and its `message`. -/
structure JSError where
  name : String
  message : JSString
deriving DecidableEq, Repr

/-- A `TypeError` with the given message. -/
def typeError (message : JSString) : JSError := ⟨"TypeError", message⟩

/-- The error of reading property `key` of `undefined` or `null` (`base` names which). -/
def cannotRead (base : String) (key : JSString) : JSError :=
  typeError (utf16 ("Cannot read properties of " ++ base ++ " (reading '") ++ key ++ utf16 "')")

/-- The values `undefined` and `null`. -/
def JSValue.isNullish : JSValue → Bool
  | .undefined => true
  | .null => true
  | _ => false

/-- ECMAScript `ToBoolean`: `undefined`, `null`, `false`, the zeros, `NaN` and `""` are
falsy. -/
def truthy : JSValue → Bool
  | .undefined => false
  | .null => false
  | .bool b => b
  | .num x => x.truthy
  | .str s => s != []
  | .arr _ => true
  | .obj _ => true

/-- The operator `a || b`. -/
def JSValue.or (a b : JSValue) : JSValue := if truthy a then a else b

/-- The read `base.key` for the property names the worker reads: `model`, `messages`, `content`,
`choices`, `message`, `length`.  None of them is defined on `Object.prototype`,
`Number.prototype` or `Boolean.prototype`; `length` is an own property of strings and arrays,
the number of code units and of elements. -/
def getProp : JSValue → JSString → Except JSError JSValue
  | .undefined, key => .error (cannotRead "undefined" key)
  | .null, key => .error (cannotRead "null" key)
  | .bool _, _ => .ok .undefined
  | .num _, _ => .ok .undefined
  | .str s, key => .ok (if key = utf16 "length" then .num (.ofNat s.length) else .undefined)
  | .arr items, key =>
    .ok (if key = utf16 "length" then .num (.ofNat items.length) else .undefined)
  | .obj props, key => .ok ((props.lookup key).getD .undefined)

/-- The read `base[i]` for a number `i`: the element of an array or the code unit of a string at
the index the number is, the property of an object named by the number's string. -/
def getIndex : JSValue → JSNumber → Except JSError JSValue
  | .undefined, i => .error (cannotRead "undefined" (utf16 (numberToString i)))
  | .null, i => .error (cannotRead "null" (utf16 (numberToString i)))
  | .bool _, _ => .ok .undefined
  | .num _, _ => .ok .undefined
  | .str s, i =>
    .ok (((i.toIndex.bind fun n => s.get? n).map fun u => JSValue.str [u]).getD .undefined)
  | .arr items, i => .ok ((i.toIndex.bind fun n => items.get? n).getD .undefined)
  | .obj props, i => .ok ((props.lookup (utf16 (numberToString i))).getD .undefined)

mutual
/-- ECMAScript `ToString`, as applied by template literals, by `+` with a string and by the
`Response` constructor to a non-string body.  An array is joined with commas
(`Array.prototype.toString`); an object gives `[object Object]`, unless it has an own
`toString` property: a parsed value is not callable, so `OrdinaryToPrimitive` finds no usable
method and throws. -/
def toStr : JSValue → Except JSError JSString
  | .undefined => .ok (utf16 "undefined")
  | .null => .ok (utf16 "null")
  | .bool b => .ok (if b then utf16 "true" else utf16 "false")
  | .num x => .ok (utf16 (numberToString x))
  | .str s => .ok s
  | .arr items => joinItems items
  | .obj props =>
    if props.any (fun p => p.1 == utf16 "toString") then
      .error (typeError (utf16 "Cannot convert object to primitive value"))
    else .ok (utf16 "[object Object]")
termination_by structural v => v
/-- `Array.prototype.join(",")`: `undefined` and `null` elements give the empty string. -/
def joinItems : List JSValue → Except JSError JSString
  | [] => .ok []
  | v :: rest =>
    match (if v.isNullish then .ok [] else toStr v), joinItems rest with
    | .ok a, .ok b => .ok (if rest.isEmpty then a else a ++ utf16 "," ++ b)
    | .error e, _ => .error e
    | _, .error e => .error e
termination_by structural l => l
end

/-- ECMAScript `ToNumber`.  Arrays and objects go through `ToPrimitive` with hint number:
`valueOf` gives back the object, so the result is that of `toString`. -/
def toNumber : JSValue → Except JSError JSNumber
  | .undefined => .ok .nan
  | .null => .ok (.ofNat 0)
  | .bool b => .ok (.ofNat (if b then 1 else 0))
  | .num x => .ok x
  | .str s => .ok (stringToNumber s)
  | .arr items => (toStr (.arr items)).map stringToNumber
  | .obj props => (toStr (.obj props)).map stringToNumber

/-- The comparison `v > k` against a natural literal `k`; false when `v` converts to `NaN`. -/
def greaterThan (v : JSValue) (k : Nat) : Except JSError Bool :=
  (toNumber v).map fun x => x.greaterThan k

/-- The call `v.slice(first, last)` for non-negative literal bounds.  Strings and arrays have
the method, which cuts at code units and at elements; on anything else the property is missing
or not callable.  `name` is the source text of the receiver, which V8 puts in the message. -/
def slice (name : String) : JSValue → Nat → Nat → Except JSError JSValue
  | .undefined, _, _ => .error (cannotRead "undefined" (utf16 "slice"))
  | .null, _, _ => .error (cannotRead "null" (utf16 "slice"))
  | .str s, first, last => .ok (.str ((s.drop first).take (last - first)))
  | .arr items, first, last => .ok (.arr ((items.drop first).take (last - first)))
  | _, _, _ => .error (typeError (utf16 (name ++ ".slice is not a function")))

/-! ## JSON.stringify -/

/-- A hexadecimal digit, lower case. -/
def hexDigit (n : Nat) : Char :=
  if n < 10 then Char.ofNat (48 + n) else Char.ofNat (87 + n)

/-- The escape `\uXXXX` of a code unit. -/
def unicodeEscape (u : CodeUnit) : JSString :=
  utf16 ⟨[Char.ofNat 92, 'u', hexDigit (u.val / 4096), hexDigit (u.val / 256 % 16),
    hexDigit (u.val / 16 % 16), hexDigit (u.val % 16)]⟩

/-- One code unit of `QuoteJSONString` that is not a surrogate. -/
def quoteUnit (u : CodeUnit) : JSString :=
  if u.val = 34 then utf16 ⟨[Char.ofNat 92, Char.ofNat 34]⟩
  else if u.val = 92 then utf16 ⟨[Char.ofNat 92, Char.ofNat 92]⟩
  else if u.val = 8 then utf16 ⟨[Char.ofNat 92, 'b']⟩
  else if u.val = 12 then utf16 ⟨[Char.ofNat 92, 'f']⟩
  else if u.val = 10 then utf16 ⟨[Char.ofNat 92, 'n']⟩
  else if u.val = 13 then utf16 ⟨[Char.ofNat 92, 'r']⟩
  else if u.val = 9 then utf16 ⟨[Char.ofNat 92, 't']⟩
  else if u.val < 32 then unicodeEscape u
  else [u]

/-- The characters of `QuoteJSONString`: a surrogate pair is kept, an unpaired surrogate is
escaped. -/
def quoteUnits : JSString → JSString
  | [] => []
  | u :: rest =>
    if isHighSurrogate u then
      match rest with
      | v :: rest2 =>
        if isLowSurrogate v then u :: v :: quoteUnits rest2
        else unicodeEscape u ++ quoteUnits (v :: rest2)
      | [] => unicodeEscape u
    else if isLowSurrogate u then unicodeEscape u ++ quoteUnits rest
    else quoteUnit u ++ quoteUnits rest

/-- `QuoteJSONString`: the JSON string literal for `s`. -/
def quoteJSON (s : JSString) : JSString :=
  utf16 ⟨[Char.ofNat 34]⟩ ++ quoteUnits s ++ utf16 ⟨[Char.ofNat 34]⟩

/-- `Array.prototype.join` on strings. -/
def joinStrings (sep : JSString) : List JSString → JSString
  | [] => []
  | [a] => a
  | a :: rest => a ++ sep ++ joinStrings sep rest

/-- The array index a property key is, if it is one: a canonical decimal numeral below
`2^32 - 1`. -/
def arrayIndex (key : JSString) : Option Nat :=
  if key ≠ [] ∧ key.all isDigit ∧ (key.length = 1 ∨ key.head?.map Fin.val ≠ some 48) ∧
      digitsValue key < 2 ^ 32 - 1 then
    some (digitsValue key)
  else none

/-- Insertion of an indexed property before the first one with a greater index. -/
def insertIndexed {α : Type} (p : Nat × JSString × α) :
    List (Nat × JSString × α) → List (Nat × JSString × α)
  | [] => [p]
  | q :: rest => if p.1 < q.1 then p :: q :: rest else q :: insertIndexed p rest

/-- The own properties in the order of `OrdinaryOwnPropertyKeys`: the array indices in
ascending order, then the other keys in the order of creation. -/
def ownProperties {α : Type} (props : List (JSString × α)) : List (JSString × α) :=
  ((props.filterMap fun p => (arrayIndex p.1).map fun n => (n, p.1, p.2)).foldr
      insertIndexed []).map (fun q => q.2) ++
    props.filter fun p => (arrayIndex p.1).isNone

mutual
/-- `JSON.stringify` without indentation; `none` is the result `undefined`.  A number that is
not finite is written `null`. -/
def stringify : JSValue → Option JSString
  | .undefined => none
  | .null => some (utf16 "null")
  | .bool b => some (if b then utf16 "true" else utf16 "false")
  | .num x =>
    match x.normal with
    | .fin _ _ _ => some (utf16 (numberToString x))
    | _ => some (utf16 "null")
  | .str s => some (quoteJSON s)
  | .arr items => some (utf16 "[" ++ joinStrings (utf16 ",") (stringifyItems items) ++ utf16 "]")
  | .obj props =>
    some (utf16 "\x7b" ++
      joinStrings (utf16 ",")
        ((ownProperties (stringifyProps props)).map fun m => quoteJSON m.1 ++ utf16 ":" ++ m.2) ++
      utf16 "\x7d")
termination_by structural v => v
/-- The elements of an array; `undefined` is written `null`. -/
def stringifyItems : List JSValue → List JSString
  | [] => []
  | v :: rest => (stringify v).getD (utf16 "null") :: stringifyItems rest
termination_by structural l => l
/-- The members of an object with their texts; a property whose value is `undefined` is left
out. -/
def stringifyProps : List (JSString × JSValue) → List (JSString × JSString)
  | [] => []
  | (key, v) :: rest =>
    match stringify v with
    | none => stringifyProps rest
    | some text => (key, text) :: stringifyProps rest
termination_by structural l => l
end

/-! ## The Fetch API and the console -/

/-- A `Response`: status, header list in the order given, body as the text it is sent as
(`none` is the null body). -/
structure Response where
  status : Nat
  headers : List (String × String)
  body : Option String
deriving DecidableEq, Repr

/-- The null body statuses of the Fetch standard. -/
def nullBodyStatus (status : Nat) : Bool :=
  [101, 103, 204, 205, 304].contains status

/-- Whether a header list names `Content-Type`, in any letter case. -/
def hasContentType (headers : List (String × String)) : Bool :=
  headers.any fun h => h.1.data.map Char.toLower == "content-type".data

/-- The constructor `new Response(body, { status, headers })` for a string or null `body`;
`status` is `200` when the source leaves it out, `headers` is empty when the source does.  The
constructor throws a `RangeError` for a status outside `200..599` and a `TypeError` for a body
with a null body status; the body is the string as a `USVString`, and a body given without a
`Content-Type` gets the one of its text. -/
def Response.new (body : Option JSString) (status : Nat) (headers : List (String × String)) :
    Except JSError Response :=
  if status < 200 ∨ 599 < status then
    .error ⟨"RangeError", utf16
      "Responses may only be constructed with status codes in the range 200 to 599, inclusive."⟩
  else if body.isSome ∧ nullBodyStatus status then
    .error (typeError
      (utf16 "Response with null body status (101, 204, 205, or 304) cannot have a body."))
  else if body.isSome ∧ ¬ hasContentType headers then
    .ok ⟨status, headers ++ [("content-type", "text/plain;charset=UTF-8")], body.map toUSV⟩
  else .ok ⟨status, headers, body.map toUSV⟩

/-- The request the worker sends upstream: the arguments of the global `fetch`. -/
structure UpstreamRequest where
  url : String
  method : String
  headers : List (String × JSString)
  body : Option JSString
deriving DecidableEq, Repr

/-- What the worker reads of the upstream response: its status, the result of awaiting `text()`
and the result of awaiting `json()`, each a value or a rejection. -/
structure UpstreamResponse where
  status : Nat
  text : Except JSError JSString
  json : Except JSError JSValue

/-- The property `ok` of a response: the status is in `200..299`. -/
def UpstreamResponse.ok (r : UpstreamResponse) : Bool :=
  decide (200 ≤ r.status ∧ r.status ≤ 299)

/-- The upstream as the worker sees it: the global `fetch` answers a request with a response or
rejects (a request it refuses to send, a network failure). -/
abbrev Upstream := UpstreamRequest → Except JSError UpstreamResponse

/-- One call of `console.log` or `console.error`, by call site. -/
inductive LogEntry where
  /-- Line 46, the request line. -/
  | request (method pathname : String) (status : Nat) (duration : Int)
  /-- Line 52. -/
  | requestError (method pathname : String) (duration : Int) (message : JSString)
  /-- Line 122. -/
  | unsupportedModel (model : JSString)
  /-- Line 136. -/
  | missingKey
  /-- Line 162. -/
  | upstreamError (status : Nat) (errorText : JSString)
  /-- Line 175. -/
  | conversation (truncatedUserMessage truncatedResponse : JSString)
  /-- Line 185. -/
  | chatError (message : JSString)
deriving DecidableEq, Repr

/-- The line an entry prints, as text. -/
def LogEntry.text : LogEntry → String
  | .request method pathname status duration =>
    method ++ " " ++ pathname ++ " - " ++ toString status ++ " (" ++ toString duration ++ "ms)"
  | .requestError method pathname duration message =>
    toUSV (utf16 (method ++ " " ++ pathname ++ " - ERROR (" ++ toString duration ++ "ms): ") ++
      message)
  | .unsupportedModel model => toUSV (utf16 "Unsupported model requested: " ++ model)
  | .missingKey => "OPENAI_API_KEY not configured"
  | .upstreamError status errorText =>
    toUSV (utf16 ("OpenAI API error (" ++ toString status ++ "): ") ++ errorText)
  | .conversation truncatedUserMessage truncatedResponse =>
    toUSV (utf16 ⟨['U', 's', 'e', 'r', ':', ' ', Char.ofNat 34]⟩ ++ truncatedUserMessage ++
      utf16 ⟨[Char.ofNat 34, ' ', '|', ' ', 'A', 'I', ':', ' ', Char.ofNat 34]⟩ ++
      truncatedResponse ++ utf16 ⟨[Char.ofNat 34]⟩)
  | .chatError message => toUSV (utf16 "Chat request error: " ++ message)

/-- Whether an entry is the request line of the `fetch` handler. -/
def LogEntry.isRequest : LogEntry → Bool
  | .request _ _ _ _ => true
  | _ => false

/-- The effects of a run so far: console output and upstream requests, oldest first. -/
structure Trace where
  log : List LogEntry
  calls : List UpstreamRequest
deriving DecidableEq, Repr

/-- A JavaScript computation: from the trace so far to the trace after it and either the value
returned or the error thrown.  The effects made before a throw stay in the trace. -/
def Js (α : Type) : Type := Trace → Trace × Except JSError α

/-- Sequencing, as `await` and `;` do it: a throw skips what follows. -/
def Js.bind {α β : Type} (m : Js α) (f : α → Js β) : Js β := fun t =>
  match m t with
  | (t1, .ok a) => f a t1
  | (t1, .error e) => (t1, .error e)

instance : Monad Js where
  pure a := fun t => (t, .ok a)
  bind := Js.bind

/-- A pure step: its value, or its throw. -/
def Js.lift {α : Type} (x : Except JSError α) : Js α := fun t => (t, x)

/-- A console call. -/
def Js.log (entry : LogEntry) : Js Unit := fun t => (⟨t.log ++ [entry], t.calls⟩, .ok ())

/-- The global `fetch`, awaited: the request is recorded and the upstream answers. -/
def Js.fetch (upstream : Upstream) (r : UpstreamRequest) : Js UpstreamResponse := fun t =>
  (⟨t.log, t.calls ++ [r]⟩, upstream r)

/-- The statement `try { body } catch (error) { handler }`. -/
def Js.tryCatch {α : Type} (body : Js α) (handler : JSError → Js α) : Js α := fun t =>
  match body t with
  | (t1, .ok a) => (t1, .ok a)
  | (t1, .error e) => handler e t1

/-- A run from the empty trace. -/
def Js.run {α : Type} (m : Js α) : Trace × Except JSError α := m ⟨[], []⟩

/-! ## The worker -/

/-- Line 7: the supported OpenAI models. -/
def SUPPORTED_MODELS : List JSString :=
  ["gpt-4o", "gpt-4o-mini", "gpt-4-turbo", "gpt-4", "gpt-3.5-turbo", "gpt-4.1-nano"]

/-- Line 17: the CORS headers for browser requests. -/
def corsHeaders : List (String × String) :=
  [("Access-Control-Allow-Origin", "*"),
   ("Access-Control-Allow-Methods", "GET, POST, OPTIONS"),
   ("Access-Control-Allow-Headers", "Content-Type, Authorization")]

/-- What the handlers read of the incoming request: its method, the `pathname` of its URL and
the result of `request.json()`. -/
structure Request where
  method : String
  pathname : String
  json : Except JSError JSValue

/-- The environment bindings of the worker; an unset binding is `undefined`. -/
structure Env where
  OPENAI_API_KEY : JSValue

/-- The call `models.includes(v)` on an array of strings: only an equal string is found. -/
def includes (models : List JSString) : JSValue → Bool
  | .str s => models.contains s
  | _ => false

/-- Line 130: the content of the last message, for logging:
`messages.length > 0 ? messages[messages.length - 1]?.content || '' : ''`. -/
def userMessage (messages : JSValue) : Except JSError JSValue := do
  if (← greaterThan (← getProp messages "length") 0) then
    let last ← getIndex messages (← toNumber (← getProp messages "length")).minusOne
    let content ← if last.isNullish then pure JSValue.undefined else getProp last "content"
    pure (content.or (.str []))
  else
    pure (.str [])

/-- Lines 131 and 172: the excerpt that is logged,
`v.length > 100 ? v.slice(0, 100) + '...' : v`, where `name` is the variable holding `v`. -/
def truncated (name : String) (v : JSValue) : Except JSError JSValue := do
  if (← greaterThan (← getProp v "length") 100) then
    pure (.str ((← toStr (← slice name v 0 100)) ++ utf16 "..."))
  else
    pure v

/-- The body a `Response` gets from a value: none from `undefined` and `null`, the string of
anything else. -/
def bodyInit : JSValue → Except JSError (Option JSString)
  | .undefined => .ok none
  | .null => .ok none
  | v => (toStr v).map some

/-- Lines 61 to 105. -/
def handleGet (pathname : String) : Except JSError Response :=
  if pathname = "/" then
    let response := JSValue.obj
      [("message", .str "Cheat CLI API is running on Cloudflare Workers"),
       ("version", .str "2.0"),
       ("platform", .str "cloudflare-workers")]
    Response.new (stringify response) 200 (("Content-Type", "application/json") :: corsHeaders)
  else if pathname = "/health" then
    let response := JSValue.obj [("status", .str "healthy")]
    Response.new (stringify response) 200 (("Content-Type", "application/json") :: corsHeaders)
  else if pathname = "/models" then
    let response := JSValue.obj
      [("models", .arr (SUPPORTED_MODELS.map fun model =>
        JSValue.obj [("id", .str model), ("name", .str model)]))]
    Response.new (stringify response) 200 (("Content-Type", "application/json") :: corsHeaders)
  else
    Response.new (some (utf16 "Not Found")) 404 corsHeaders

/-- Lines 107 to 191. -/
def handlePost (request : Request) (pathname : String) (env : Env) (upstream : Upstream) :
    Js Response :=
  if pathname ≠ "/chat" then
    Js.lift (Response.new (some (utf16 "Not Found")) 404 corsHeaders)
  else
    Js.tryCatch (do
      let requestData ← Js.lift request.json
      let model := (← Js.lift (getProp requestData "model")).or (.str "gpt-4o-mini")
      let messages := (← Js.lift (getProp requestData "messages")).or (.arr [])
      if !includes SUPPORTED_MODELS model then
        Js.log (.unsupportedModel (← Js.lift (toStr model)))
        Js.lift (do
          Response.new
            (some (utf16 "Unsupported model: " ++ (← toStr model) ++
              utf16 ". Supported models: " ++ joinStrings (utf16 ", ") SUPPORTED_MODELS))
            400 corsHeaders)
      else
        let userMessage ← Js.lift (userMessage messages)
        let truncatedUserMessage ← Js.lift (truncated "userMessage" userMessage)
        let openaiApiKey := env.OPENAI_API_KEY
        if !truthy openaiApiKey then
          Js.log .missingKey
          Js.lift (Response.new (some (utf16 "OPENAI_API_KEY not configured")) 500 corsHeaders)
        else
          let openaiRequest := JSValue.obj
            [("model", model), ("messages", messages), ("stream", .bool false)]
          let authorization := utf16 "Bearer " ++ (← Js.lift (toStr openaiApiKey))
          let openaiResponse ← Js.fetch upstream
            ⟨"https://api.openai.com/v1/chat/completions", "POST",
              [("Content-Type", utf16 "application/json"), ("Authorization", authorization)],
              stringify openaiRequest⟩
          if !openaiResponse.ok then
            let errorText ← Js.lift openaiResponse.text
            Js.log (.upstreamError openaiResponse.status errorText)
            Js.lift (Response.new
              (some (utf16 ("OpenAI API error: " ++ toString openaiResponse.status)))
              openaiResponse.status corsHeaders)
          else
            let data ← Js.lift openaiResponse.json
            let content ← Js.lift (do
              getProp (← getProp (← getIndex (← getProp data "choices") (.ofNat 0)) "message")
                "content")
            let truncatedResponse ← Js.lift (truncated "content" content)
            Js.log (.conversation (← Js.lift (toStr truncatedUserMessage))
              (← Js.lift (toStr truncatedResponse)))
            Js.lift (do
              Response.new (← bodyInit content) 200 (("Content-Type", "text/plain") :: corsHeaders)))
      (fun error => do
        Js.log (.chatError error.message)
        Js.lift (Response.new (some (utf16 "Error: " ++ error.message)) 500 corsHeaders))

/-- Lines 24 to 58, the handler of the worker.  `startTime` is `Date.now()` at line 26 and
`endTime` is `Date.now()` where the handler reads it again, at line 45 or 51. -/
def fetch (request : Request) (env : Env) (upstream : Upstream) (startTime endTime : Int) :
    Js Response :=
  Js.tryCatch
    (if request.method = "OPTIONS" then
      Js.lift (Response.new none 200 corsHeaders)
    else do
      let response ←
        if request.method = "GET" then
          Js.lift (handleGet request.pathname)
        else if request.method = "POST" then
          handlePost request request.pathname env upstream
        else
          Js.lift (Response.new (some (utf16 "Method not allowed")) 405 [])
      let duration := endTime - startTime
      Js.log (.request request.method request.pathname response.status duration)
      pure response)
    (fun error => do
      let duration := endTime - startTime
      Js.log (.requestError request.method request.pathname duration error.message)
      Js.lift (Response.new (some (utf16 "Internal Server Error")) 500 corsHeaders))


/-! ## Definitions used by the statements -/

/-- The request of line 151, for the model, the messages and the string of the key. -/
def chatCompletion (model messages : JSValue) (key : JSString) : UpstreamRequest :=
  ⟨"https://api.openai.com/v1/chat/completions", "POST",
   [("Content-Type", utf16 "application/json"), ("Authorization", utf16 "Bearer " ++ key)],
   stringify (.obj [("model", model), ("messages", messages), ("stream", .bool false)])⟩

/-- The object with the own properties `props` after `key` is set to `v`: an entry with the key
takes the value in place, otherwise the property is added last. -/
def setProp : List (JSString × JSValue) → JSString → JSValue → List (JSString × JSValue)
  | [], key, v => [(key, v)]
  | (k, w) :: rest, key, v =>
    if k = key then (key, v) :: rest else (k, w) :: setProp rest key v

/-- Whether an entry is the line of a rejected model (line 122). -/
def LogEntry.isUnsupportedModel : LogEntry → Bool
  | .unsupportedModel _ => true
  | _ => false

/-- Every entry the computation adds to the log satisfies `P`. -/
def Js.Logs {α : Type} (P : LogEntry → Prop) (m : Js α) : Prop :=
  ∀ t, ∃ extra, (m t).1.log = t.log ++ extra ∧ ∀ e ∈ extra, P e

/-- Every value the computation returns satisfies `Q`. -/
structure Js.Yields {α : Type} (Q : α → Prop) (m : Js α) : Prop where
  ok : ∀ t t1 a, m t = (t1, .ok a) → Q a

/-- The response carries the three CORS headers of line 17. -/
structure Response.HasCors (r : Response) : Prop where
  all : ∀ header ∈ corsHeaders, header ∈ r.headers

/-- The computation returns a value from every trace: it does not throw. -/
def Js.Returns {α : Type} (m : Js α) : Prop :=
  ∀ t, ∃ t1 a, m t = (t1, .ok a)

/-! ## Evaluation lemmas for `Js` -/

theorem Js.bind_eq {α β : Type} (m : Js α) (f : α → Js β) : (m >>= f) = Js.bind m f := rfl

theorem Js.pure_eq {α : Type} (a : α) : (pure a : Js α) = Js.lift (.ok a) := rfl

theorem Js.bind_lift_ok {α β : Type} (a : α) (f : α → Js β) :
    Js.bind (Js.lift (.ok a)) f = f a := rfl

theorem Js.bind_log_apply {β : Type} (entry : LogEntry) (f : Unit → Js β) (t : Trace) :
    Js.bind (Js.log entry) f t = f () ⟨t.log ++ [entry], t.calls⟩ := rfl

theorem Js.bind_fetch_apply {β : Type} (upstream : Upstream) (r : UpstreamRequest)
    (f : UpstreamResponse → Js β) (t : Trace) :
    Js.bind (Js.fetch upstream r) f t =
      match upstream r with
      | .ok a => f a ⟨t.log, t.calls ++ [r]⟩
      | .error e => (⟨t.log, t.calls ++ [r]⟩, .error e) := by
  simp only [Js.bind, Js.fetch]
  cases upstream r <;> rfl

theorem Js.lift_apply {α : Type} (x : Except JSError α) (t : Trace) : Js.lift x t = (t, x) := rfl

theorem Js.tryCatch_apply {α : Type} (body : Js α) (handler : JSError → Js α) (t : Trace) :
    Js.tryCatch body handler t =
      match body t with
      | (t1, .ok a) => (t1, .ok a)
      | (t1, .error e) => handler e t1 := rfl

theorem getProp_ok_of_ok {v m : JSValue} {key : JSString} (h : getProp v key = .ok m)
    (key2 : JSString) :
    ∃ m2, getProp v key2 = .ok m2 := by
  cases v <;> simp [getProp] at h ⊢

theorem Response.new_text (body : JSString) (status : Nat) (h : 200 ≤ status ∧ status ≤ 599)
    (hn : nullBodyStatus status = false) :
    Response.new (some body) status corsHeaders =
      .ok ⟨status, corsHeaders ++ [("content-type", "text/plain;charset=UTF-8")],
        some (toUSV body)⟩ := by
  have h1 : ¬ (status < 200 ∨ 599 < status) := by omega
  simp [Response.new, h1, hn]
  decide

theorem handlePost_unsupported (request : Request) (env : Env) (upstream : Upstream)
    (requestData m : JSValue) (text : JSString)
    (hjson : request.json = .ok requestData)
    (hmodel : getProp requestData "model" = .ok m)
    (hunsupported : includes SUPPORTED_MODELS (m.or (.str "gpt-4o-mini")) = false)
    (htext : toStr (m.or (.str "gpt-4o-mini")) = .ok text) :
    (handlePost request "/chat" env upstream).run =
      (⟨[.unsupportedModel text], []⟩,
       .ok ⟨400, corsHeaders ++ [("content-type", "text/plain;charset=UTF-8")],
            some (toUSV (utf16 "Unsupported model: " ++ text ++ utf16 ". Supported models: gpt-4o, gpt-4o-mini, gpt-4-turbo, gpt-4, gpt-3.5-turbo, gpt-4.1-nano"))⟩) := by
  obtain ⟨ms, hms⟩ := getProp_ok_of_ok hmodel "messages"
  have hl : utf16 ". Supported models: " ++ joinStrings (utf16 ", ") SUPPORTED_MODELS =
      utf16 ". Supported models: gpt-4o, gpt-4o-mini, gpt-4-turbo, gpt-4, gpt-3.5-turbo, gpt-4.1-nano" := by
    decide
  simp only [handlePost, Js.run, ne_eq, not_true_eq_false, if_false, Js.bind_eq, hjson, hmodel, hms,
    Js.bind_lift_ok, hunsupported, htext, Bool.not_false, if_true, Js.tryCatch_apply, Js.bind_log_apply,
    Js.lift_apply, bind, Except.bind, Response.new_text _ 400 (by omega) (by decide),
    List.append_assoc, hl, List.nil_append]

theorem normal_ofNat (n : Nat) (h : n < 2 ^ 53) : (JSNumber.ofNat n).normal = .ofNat n := by
  have hf : fraction n 0 = (n * 2 ^ 0, 1) := rfl
  simp only [JSNumber.ofNat, JSNumber.normal, hf, pow_zero, mul_one]
  unfold roundRat
  by_cases h0 : n = 0
  · subst h0
    rfl
  · rw [if_neg (by simp [h0]), if_pos ⟨rfl, h⟩]

theorem binaryExponent_le (n : Nat) : binaryExponent n 1 ≤ (Nat.log2 n : Int) := by
  have h1 : (Nat.toDigits 2 1).length = 1 := by decide
  have hL : (Nat.toDigits 2 n).length ≤ Nat.log2 n + 1 :=
    Nat.toDigitsCore_length 2 (le_refl 2) (n + 1) n (Nat.log2 n + 1) Nat.lt_log2_self
      (Nat.succ_pos _)
  unfold binaryExponent
  simp only [h1]
  split <;> omega

theorem roundAt_large (n e : Nat) (h : 2 ^ (e + 52) ≤ n) :
    roundAt false n 1 (e : Int) = .inf false ∨
      ∃ m, roundAt false n 1 (e : Int) = .fin false m (e : Int) ∧ 2 ^ 52 ≤ m := by
  have he : ¬ ((e : Int) < 0) := by omega
  have hq : 2 ^ 52 ≤ n / (1 * 2 ^ e) := by
    rw [Nat.le_div_iff_mul_le (by positivity)]
    calc 2 ^ 52 * (1 * 2 ^ e) = 2 ^ (e + 52) := by ring
      _ ≤ n := h
  unfold roundAt
  simp only [he, if_false, Int.toNat_ofNat]
  split
  all_goals
    split
    · exact Or.inl rfl
    · exact Or.inr ⟨_, rfl, by omega⟩

theorem roundAt_small (n : Nat) (e : Int) (he : e < 0) :
    roundAt false n 1 e = .fin false (n * 2 ^ (-e).toNat) e := by
  unfold roundAt
  have h1 : ¬ (971 < e ∨ e = 971 ∧ 2 ^ 53 ≤ n * 2 ^ (-e).toNat) := by omega
  have h2 : ¬ (1 < 2 * (n * 2 ^ (-e).toNat % 1) ∨
      2 * (n * 2 ^ (-e).toNat % 1) = 1 ∧ n * 2 ^ (-e).toNat % 2 = 1) := by
    rw [Nat.mod_one]
    omega
  simp only [he, if_true, Nat.div_one, if_neg h2, if_neg h1]

theorem ofNat_greaterThan (n k : Nat) (hk : k < 2 ^ 52) :
    (JSNumber.ofNat n).greaterThan k = decide (k < n) := by
  by_cases hn : n < 2 ^ 53
  · unfold JSNumber.greaterThan
    rw [normal_ofNat n hn]
    simp [JSNumber.ofNat, fraction]
  · have hkn : k < n := by omega
    have hf : fraction n 0 = (n * 2 ^ 0, 1) := rfl
    have hnorm : (JSNumber.ofNat n).normal =
        roundAt false n 1 (max (binaryExponent n 1 - 52) (-1074)) := by
      simp only [JSNumber.ofNat, JSNumber.normal, hf, pow_zero, mul_one]
      unfold roundRat
      rw [if_neg (by omega), if_neg (by omega)]
    unfold JSNumber.greaterThan
    rw [hnorm]
    have hbe := binaryExponent_le n
    by_cases he : max (binaryExponent n 1 - 52) (-1074) < 0
    · rw [roundAt_small n _ he]
      have hfr : fraction (n * 2 ^ (-(max (binaryExponent n 1 - 52) (-1074))).toNat)
          (max (binaryExponent n 1 - 52) (-1074)) =
          (n * 2 ^ (-(max (binaryExponent n 1 - 52) (-1074))).toNat,
            2 ^ (-(max (binaryExponent n 1 - 52) (-1074))).toNat) := by
        unfold fraction
        rw [if_neg (by omega)]
      simp only [hfr, Bool.not_false, Bool.true_and, decide_eq_decide]
      constructor
      · intro _; exact hkn
      · intro _
        exact Nat.mul_lt_mul_of_pos_right hkn (by positivity)
    · obtain ⟨e, hee⟩ : ∃ e : Nat, max (binaryExponent n 1 - 52) (-1074) = (e : Int) :=
        ⟨(max (binaryExponent n 1 - 52) (-1074)).toNat, by omega⟩
      have hpow : 2 ^ (e + 52) ≤ n := by
        have h1 : (e : Int) + 52 ≤ (Nat.log2 n : Int) := by omega
        have h2 : e + 52 ≤ Nat.log2 n := by omega
        calc 2 ^ (e + 52) ≤ 2 ^ Nat.log2 n := Nat.pow_le_pow_right (by decide) h2
          _ ≤ n := Nat.log2_self_le (by omega)
      rw [hee]
      rcases roundAt_large n e hpow with hinf | ⟨m, hm, hm52⟩
      · rw [hinf]
        simp [hkn]
      · rw [hm]
        have hfr : fraction m (e : Int) = (m * 2 ^ e, 1) := by
          unfold fraction
          rw [if_pos (by omega)]
          simp
        simp only [hfr, Bool.not_false, Bool.true_and, mul_one, decide_eq_decide]
        constructor
        · intro _; exact hkn
        · intro _
          calc k < 2 ^ 52 := hk
            _ ≤ m := hm52
            _ ≤ m * 2 ^ e := Nat.le_mul_of_pos_right _ (by positivity)

theorem ofNat_succ_minusOne (n : Nat) (h : n + 1 < 2 ^ 53) :
    (JSNumber.ofNat (n + 1)).minusOne = JSNumber.ofNat n := by
  have hf : fraction (n + 1) 0 = ((n + 1) * 2 ^ 0, 1) := rfl
  unfold JSNumber.minusOne
  rw [normal_ofNat (n + 1) h]
  simp only [JSNumber.ofNat, hf, pow_zero, mul_one, Bool.false_eq_true, if_false]
  rw [if_pos (by omega)]
  have hn : n + 1 - 1 = n := by omega
  rw [hn]
  unfold roundRat
  by_cases h0 : n = 0
  · subst h0
    rfl
  · rw [if_neg (by simp [h0]), if_pos ⟨rfl, by omega⟩]

theorem ofNat_toIndex (n : Nat) (h : n < 2 ^ 53) : (JSNumber.ofNat n).toIndex = some n := by
  have hf : fraction n 0 = (n * 2 ^ 0, 1) := rfl
  unfold JSNumber.toIndex
  rw [normal_ofNat n h]
  by_cases h0 : n = 0
  · subst h0
    rfl
  · simp only [JSNumber.ofNat, hf, pow_zero, mul_one, Bool.false_eq_true,
      if_false, h0, Nat.mod_one, if_true, Nat.div_one]

theorem truncated_str (name : String) (s : JSString) :
    truncated name (.str s) =
      .ok (.str (if 100 < s.length then s.take 100 ++ utf16 "..." else s)) := by
  by_cases h : 100 < s.length
  · simp [truncated, getProp, greaterThan, toNumber, ofNat_greaterThan _ 100 (by decide), slice,
      toStr, h, bind,
      Except.bind, Except.map, pure, Except.pure]
  · simp [truncated, getProp, greaterThan, toNumber, ofNat_greaterThan _ 100 (by decide), slice,
      toStr, h, bind,
      Except.bind, Except.map, pure, Except.pure]

/-! ## What a computation adds to the log, and whether it returns -/

theorem Js.logs_lift {α : Type} (P : LogEntry → Prop) (x : Except JSError α) :
    Js.Logs P (Js.lift x) := fun t => ⟨[], by simp [Js.lift]⟩

theorem Js.logs_pure {α : Type} (P : LogEntry → Prop) (a : α) :
    Js.Logs P (Pure.pure a : Js α) := fun t => ⟨[], by simp [Pure.pure]⟩

theorem Js.logs_fetch (P : LogEntry → Prop) (upstream : Upstream) (r : UpstreamRequest) :
    Js.Logs P (Js.fetch upstream r) := fun t => ⟨[], by simp [Js.fetch]⟩

theorem Js.logs_log (P : LogEntry → Prop) (entry : LogEntry) (h : P entry) :
    Js.Logs P (Js.log entry) := fun t => ⟨[entry], by simp [Js.log, h]⟩

theorem Js.logs_bind {α β : Type} (P : LogEntry → Prop) (m : Js α) (f : α → Js β)
    (hm : Js.Logs P m) (hf : ∀ a, Js.Logs P (f a)) : Js.Logs P (m >>= f) := by
  intro t
  obtain ⟨e1, h1, p1⟩ := hm t
  rw [Js.bind_eq]
  unfold Js.bind
  rcases hmt : m t with ⟨t1, r⟩
  rw [hmt] at h1
  cases r with
  | error e => exact ⟨e1, h1, p1⟩
  | ok a =>
    obtain ⟨e2, h2, p2⟩ := hf a t1
    refine ⟨e1 ++ e2, ?_, ?_⟩
    · simp only [h2]
      simp only at h1
      rw [h1, List.append_assoc]
    · intro e he
      rcases List.mem_append.mp he with h | h
      · exact p1 e h
      · exact p2 e h

theorem Js.logs_tryCatch {α : Type} (P : LogEntry → Prop) (body : Js α) (handler : JSError → Js α)
    (hb : Js.Logs P body) (hh : ∀ e, Js.Logs P (handler e)) : Js.Logs P (Js.tryCatch body handler) := by
  intro t
  obtain ⟨e1, h1, p1⟩ := hb t
  unfold Js.tryCatch
  rcases hmt : body t with ⟨t1, r⟩
  rw [hmt] at h1
  cases r with
  | ok a => exact ⟨e1, h1, p1⟩
  | error e =>
    obtain ⟨e2, h2, p2⟩ := hh e t1
    refine ⟨e1 ++ e2, ?_, ?_⟩
    · simp only [h2]
      simp only at h1
      rw [h1, List.append_assoc]
    · intro e he
      rcases List.mem_append.mp he with h | h
      · exact p1 e h
      · exact p2 e h

theorem Js.logs_ite {α : Type} (P : LogEntry → Prop) (c : Prop) [Decidable c] (a b : Js α)
    (ha : Js.Logs P a) (hb : Js.Logs P b) : Js.Logs P (if c then a else b) := by
  split <;> assumption

theorem handlePost_logs (request : Request) (pathname : String) (env : Env) (upstream : Upstream) :
    Js.Logs (fun e => e.isRequest = false) (handlePost request pathname env upstream) := by
  unfold handlePost
  repeat' first
    | exact Js.logs_lift _ _
    | exact Js.logs_pure _ _
    | exact Js.logs_fetch _ _ _
    | exact Js.logs_log _ _ rfl
    | apply Js.logs_tryCatch
    | apply Js.logs_ite
    | apply Js.logs_bind
    | intro _


theorem Js.returns_tryCatch {α : Type} (body : Js α) (handler : JSError → Js α)
    (hh : ∀ e, Js.Returns (handler e)) : Js.Returns (Js.tryCatch body handler) := by
  intro t
  unfold Js.tryCatch
  rcases body t with ⟨t1, r⟩
  cases r with
  | ok a => exact ⟨t1, a, rfl⟩
  | error e => exact hh e t1

theorem handlePost_returns (request : Request) (pathname : String) (env : Env)
    (upstream : Upstream) : Js.Returns (handlePost request pathname env upstream) := by
  unfold handlePost
  split
  · intro t
    exact ⟨t, _, rfl⟩
  · apply Js.returns_tryCatch
    intro e t
    simp only [Js.bind_eq, Js.bind_log_apply, Js.lift_apply,
      Response.new_text _ 500 (by omega) (by decide)]
    exact ⟨_, _, rfl⟩

/-! ## The routes -/

theorem handleGet_notFound (pathname : String) (h1 : pathname ≠ "/") (h2 : pathname ≠ "/health")
    (h3 : pathname ≠ "/models") :
    handleGet pathname =
      .ok ⟨404, corsHeaders ++ [("content-type", "text/plain;charset=UTF-8")], some "Not Found"⟩ := by
  simp only [handleGet, h1, h2, h3, if_false]
  rfl

theorem handleGet_found (pathname : String)
    (h : pathname = "/" ∨ pathname = "/health" ∨ pathname = "/models") :
    ∃ body, handleGet pathname =
      .ok ⟨200, ("Content-Type", "application/json") :: corsHeaders, some body⟩ := by
  rcases h with h | h | h <;> subst h <;> exact ⟨_, rfl⟩

theorem fetch_options (request : Request) (env : Env) (upstream : Upstream)
    (startTime endTime : Int) (h : request.method = "OPTIONS") :
    (fetch request env upstream startTime endTime).run = (⟨[], []⟩, .ok ⟨200, corsHeaders, none⟩) := by
  simp only [fetch, h, if_true, Js.run, Js.tryCatch_apply, Js.lift_apply]
  rfl

theorem fetch_get (request : Request) (env : Env) (upstream : Upstream)
    (startTime endTime : Int) (r : Response) (h : request.method = "GET")
    (hr : handleGet request.pathname = .ok r) :
    (fetch request env upstream startTime endTime).run =
      (⟨[.request "GET" request.pathname r.status (endTime - startTime)], []⟩, .ok r) := by
  have h0 : ("GET" = "OPTIONS") = False := by decide
  simp only [fetch, h, h0, if_true, if_false, Js.run, Js.tryCatch_apply, Js.lift_apply, Js.bind_eq,
    hr, Js.bind_lift_ok, Js.bind_log_apply, Js.pure_eq]
  rfl

theorem fetch_post (request : Request) (env : Env) (upstream : Upstream)
    (startTime endTime : Int) (t : Trace) (r : Response) (h : request.method = "POST")
    (hr : (handlePost request request.pathname env upstream).run = (t, .ok r)) :
    (fetch request env upstream startTime endTime).run =
      (⟨t.log ++ [.request "POST" request.pathname r.status (endTime - startTime)], t.calls⟩,
        .ok r) := by
  have h0 : ("POST" = "OPTIONS") = False := by decide
  have h1 : ("POST" = "GET") = False := by decide
  simp only [Js.run] at hr
  simp only [fetch, h, h0, h1, if_true, if_false, Js.run, Js.tryCatch_apply, Js.bind_eq, Js.bind,
    hr, Js.log, Js.pure_eq, Js.lift_apply]

theorem fetch_otherMethod (request : Request) (env : Env) (upstream : Upstream)
    (startTime endTime : Int) (h0 : request.method ≠ "OPTIONS") (h1 : request.method ≠ "GET")
    (h2 : request.method ≠ "POST") :
    (fetch request env upstream startTime endTime).run =
      (⟨[.request request.method request.pathname 405 (endTime - startTime)], []⟩,
        .ok ⟨405, [("content-type", "text/plain;charset=UTF-8")], some "Method not allowed"⟩) := by
  have hn : Response.new (some (utf16 "Method not allowed")) 405 [] =
      .ok ⟨405, [("content-type", "text/plain;charset=UTF-8")], some "Method not allowed"⟩ := by
    rfl
  simp only [fetch, h0, h1, h2, if_false, Js.run, Js.tryCatch_apply, Js.lift_apply, Js.bind_eq,
    hn, Js.bind_lift_ok, Js.bind_log_apply, Js.pure_eq]
  rfl

theorem handlePost_notFound (request : Request) (pathname : String) (env : Env)
    (upstream : Upstream) (h : pathname ≠ "/chat") :
    (handlePost request pathname env upstream).run =
      (⟨[], []⟩,
        .ok ⟨404, corsHeaders ++ [("content-type", "text/plain;charset=UTF-8")], some "Not Found"⟩) := by
  simp only [handlePost, h, ne_eq, not_false_eq_true, if_true, Js.run, Js.lift_apply]
  rfl


/-! ## C1: an unsupported model is rejected before any upstream call -/

/-- C1 does not hold for every model. The body `{"model": {"toString": 1}}` parses as JSON and its
model is not one of the six supported ones, yet `handlePost` answers 500, not 400: the model has
no string conversion, so the template literal of line 122 throws and the `catch` of line 184
answers. -/
theorem C1_counterexample_model_without_text :
    includes SUPPORTED_MODELS
        ((JSValue.obj [("toString", .num (.ofNat 1))]).or (.str "gpt-4o-mini")) = false ∧
    (handlePost
        ⟨"POST", "/chat", .ok (.obj [("model", .obj [("toString", .num (.ofNat 1))])])⟩ "/chat"
        ⟨.undefined⟩ (fun _ => .error ⟨"TypeError", "fetch failed"⟩)).run =
      (⟨[.chatError "Cannot convert object to primitive value"], []⟩,
       .ok ⟨500, corsHeaders ++ [("content-type", "text/plain;charset=UTF-8")],
            some "Error: Cannot convert object to primitive value"⟩) :=
  ⟨rfl, rfl⟩

/-- C1, for a model that has a string conversion. For every POST /chat request whose body parses
as JSON (`hjson`), whose `model` property can be read (`hmodel`), and whose model, after a missing
or falsy one is replaced by `gpt-4o-mini`, is not one of the six supported models (`hunsupported`)
and has a string conversion `text` (`htext`; every string, number and boolean has one, a number
the text of `Number::toString`): `handlePost` answers status 400 with the body
`Unsupported model: <text>. Supported models: ...` listing the six models in declaration order,
sent as the text of that string, logs the rejected model and makes no upstream call, whatever the
messages, the environment and the upstream are. -/
theorem C1_unsupported_model_rejected (request : Request) (env : Env) (upstream : Upstream)
    (requestData m : JSValue) (text : JSString)
    (hjson : request.json = .ok requestData)
    (hmodel : getProp requestData "model" = .ok m)
    (hunsupported : includes SUPPORTED_MODELS (m.or (.str "gpt-4o-mini")) = false)
    (htext : toStr (m.or (.str "gpt-4o-mini")) = .ok text) :
    (handlePost request "/chat" env upstream).run =
      (⟨[.unsupportedModel text], []⟩,
       .ok ⟨400, corsHeaders ++ [("content-type", "text/plain;charset=UTF-8")],
            some (toUSV (utf16 "Unsupported model: " ++ text ++ utf16 ". Supported models: gpt-4o, gpt-4o-mini, gpt-4-turbo, gpt-4, gpt-3.5-turbo, gpt-4.1-nano"))⟩) :=
  handlePost_unsupported request env upstream requestData m text hjson hmodel hunsupported htext

set_option maxRecDepth 100000 in
/-- C1 at `{"model": "not-a-real-model", "messages": [{"role": "user", "content": "hi"}]}` with a
configured key: status 400, the full list in the body, no upstream call. -/
theorem C1_unsupported_model_rejected_witness :
    (handlePost
        ⟨"POST", "/chat", .ok (.obj [("model", .str "not-a-real-model"),
          ("messages", .arr [.obj [("role", .str "user"), ("content", .str "hi")]])])⟩
        "/chat" ⟨.str "sk-test"⟩ (fun _ => .error ⟨"TypeError", "fetch failed"⟩)).run =
      (⟨[.unsupportedModel "not-a-real-model"], []⟩,
       .ok ⟨400, corsHeaders ++ [("content-type", "text/plain;charset=UTF-8")],
            some "Unsupported model: not-a-real-model. Supported models: gpt-4o, gpt-4o-mini, gpt-4-turbo, gpt-4, gpt-3.5-turbo, gpt-4.1-nano"⟩) :=
  C1_unsupported_model_rejected _ _ _ _ (.str "not-a-real-model") "not-a-real-model" rfl rfl rfl rfl

/-! ## C4: no credential -/

/-- C4 does not hold for every value of `messages`. With a supported model and no key, the
messages `[{"content": {"length": 101}}]` do not get the body `OPENAI_API_KEY not configured`: the
excerpt of line 131 is computed before the key is read, `userMessage.length > 100` holds and
`userMessage.slice` is not a function, so the `catch` answers with the message of that error. -/
theorem C4_counterexample_excerpt_throws :
    (handlePost
        ⟨"POST", "/chat", .ok (.obj [("model", .str "gpt-4o"),
          ("messages", .arr [.obj [("content", .obj [("length", .num (.ofNat 101))])]])])⟩
        "/chat" ⟨.undefined⟩ (fun _ => .error ⟨"TypeError", "fetch failed"⟩)).run =
      (⟨[.chatError "userMessage.slice is not a function"], []⟩,
       .ok ⟨500, corsHeaders ++ [("content-type", "text/plain;charset=UTF-8")],
            some "Error: userMessage.slice is not a function"⟩) :=
  rfl

/-- C4, for messages whose logging excerpt is computed. For every POST /chat request whose body
parses as JSON, whose defaulted model is supported and whose messages let the logging excerpt of
lines 130 and 131 be computed without an exception (`hexcerpt`): when `env.OPENAI_API_KEY` is
absent or otherwise falsy, `handlePost` answers status 500 with body exactly `OPENAI_API_KEY not
configured`, logs that line and makes no upstream call. -/
theorem C4_missing_key (request : Request) (env : Env) (upstream : Upstream)
    (requestData m ms excerpt : JSValue)
    (hjson : request.json = .ok requestData)
    (hmodel : getProp requestData "model" = .ok m)
    (hmessages : getProp requestData "messages" = .ok ms)
    (hsupported : includes SUPPORTED_MODELS (m.or (.str "gpt-4o-mini")) = true)
    (hexcerpt : (userMessage (ms.or (.arr [])) >>= truncated "userMessage") = .ok excerpt)
    (hkey : truthy env.OPENAI_API_KEY = false) :
    (handlePost request "/chat" env upstream).run =
      (⟨[.missingKey], []⟩,
       .ok ⟨500, corsHeaders ++ [("content-type", "text/plain;charset=UTF-8")],
            some "OPENAI_API_KEY not configured"⟩) := by
  cases hu : userMessage (ms.or (.arr [])) with
  | error e => simp [hu, bind, Except.bind] at hexcerpt
  | ok u =>
    simp only [hu, bind, Except.bind] at hexcerpt
    simp only [handlePost, Js.run, ne_eq, not_true_eq_false, if_false, Js.bind_eq, hjson, hmodel,
      hmessages, Js.bind_lift_ok, hsupported, hu, hexcerpt, hkey, Bool.not_false, Bool.not_true,
      Bool.false_eq_true, if_true, if_false,
      Js.tryCatch_apply, Js.bind_log_apply,
      Js.lift_apply, Response.new_text _ 500 (by omega) (by decide)]
    rfl

/-- C4 at `{"model": "gpt-4o", "messages": [{"role": "user", "content": "hi"}]}` with no key. -/
theorem C4_missing_key_witness :
    (handlePost
        ⟨"POST", "/chat", .ok (.obj [("model", .str "gpt-4o"),
          ("messages", .arr [.obj [("role", .str "user"), ("content", .str "hi")]])])⟩
        "/chat" ⟨.undefined⟩ (fun _ => .error ⟨"TypeError", "fetch failed"⟩)).run =
      (⟨[.missingKey], []⟩,
       .ok ⟨500, corsHeaders ++ [("content-type", "text/plain;charset=UTF-8")],
            some "OPENAI_API_KEY not configured"⟩) :=
  C4_missing_key _ _ _ _ (.str "gpt-4o")
    (.arr [.obj [("role", .str "user"), ("content", .str "hi")]]) (.str "hi") rfl rfl rfl rfl rfl rfl

/-! ## C5: an upstream error status is mirrored -/

set_option maxRecDepth 100000 in
/-- C5 does not hold for every upstream status, nor for every upstream body. With the default
model, a configured key and no messages, an upstream answer of status 304 with body `not modified`
is outside the success range, yet the response is not 304: `new Response` refuses a body with a
null body status and the `catch` answers 500; the same happens, with a `RangeError`, for an
upstream status of 600; and for a status 429 whose body cannot be read, where `await
openaiResponse.text()` rejects at line 161. -/
theorem C5_counterexample_status_not_constructible :
    (handlePost ⟨"POST", "/chat", .ok (.obj [])⟩ "/chat" ⟨.str "sk-test"⟩
        (fun _ => .ok ⟨304, .ok "not modified", .error ⟨"SyntaxError", "Unexpected token"⟩⟩)).run =
      (⟨[.upstreamError 304 "not modified",
          .chatError "Response with null body status (101, 204, 205, or 304) cannot have a body."],
        [chatCompletion (.str "gpt-4o-mini") (.arr []) "sk-test"]⟩,
       .ok ⟨500, corsHeaders ++ [("content-type", "text/plain;charset=UTF-8")],
            some "Error: Response with null body status (101, 204, 205, or 304) cannot have a body."⟩) ∧
    ((handlePost ⟨"POST", "/chat", .ok (.obj [])⟩ "/chat" ⟨.str "sk-test"⟩
        (fun _ => .ok ⟨600, .ok "", .error ⟨"SyntaxError", "Unexpected token"⟩⟩)).run).2 =
      .ok ⟨500, corsHeaders ++ [("content-type", "text/plain;charset=UTF-8")],
            some "Error: Responses may only be constructed with status codes in the range 200 to 599, inclusive."⟩ ∧
    ((handlePost ⟨"POST", "/chat", .ok (.obj [])⟩ "/chat" ⟨.str "sk-test"⟩
        (fun _ => .ok ⟨429, .error ⟨"TypeError", "Network connection lost."⟩,
          .error ⟨"TypeError", "Network connection lost."⟩⟩)).run).2 =
      .ok ⟨500, corsHeaders ++ [("content-type", "text/plain;charset=UTF-8")],
            some "Error: Network connection lost."⟩ :=
  ⟨rfl, rfl, rfl⟩

/-- C5, for the statuses a response with a body can have. For every POST /chat request that
reaches the upstream call (the body parses, the defaulted model is supported, the logging excerpt
of the messages is computed, the key is truthy and has a text): if the upstream answers the
request of line 151 with a status `s` that is outside the success range and that `new Response`
accepts with a body, that is `300 ≤ s ≤ 599` and `s ≠ 304`, and the upstream body is read as the
text `errorText` (`htext`), then `handlePost` answers with that same status `s` and the body
`OpenAI API error: <s>`; the upstream body goes to the log only, never to the caller. -/
theorem C5_upstream_error_mirrored (request : Request) (env : Env) (upstream : Upstream)
    (requestData m ms excerpt : JSValue) (key errorText : JSString) (resp : UpstreamResponse)
    (hjson : request.json = .ok requestData)
    (hmodel : getProp requestData "model" = .ok m)
    (hmessages : getProp requestData "messages" = .ok ms)
    (hsupported : includes SUPPORTED_MODELS (m.or (.str "gpt-4o-mini")) = true)
    (hexcerpt : (userMessage (ms.or (.arr [])) >>= truncated "userMessage") = .ok excerpt)
    (hkey : truthy env.OPENAI_API_KEY = true)
    (hbearer : toStr env.OPENAI_API_KEY = .ok key)
    (hupstream : upstream (chatCompletion (m.or (.str "gpt-4o-mini")) (ms.or (.arr [])) key) = .ok resp)
    (hstatus : 300 ≤ resp.status ∧ resp.status ≤ 599 ∧ resp.status ≠ 304)
    (htext : resp.text = .ok errorText) :
    (handlePost request "/chat" env upstream).run =
      (⟨[.upstreamError resp.status errorText],
        [chatCompletion (m.or (.str "gpt-4o-mini")) (ms.or (.arr [])) key]⟩,
       .ok ⟨resp.status, corsHeaders ++ [("content-type", "text/plain;charset=UTF-8")],
            some (toUSV (utf16 ("OpenAI API error: " ++ toString resp.status)))⟩) := by
  have hok : resp.ok = false := by
    simp [UpstreamResponse.ok]; omega
  have hnull : nullBodyStatus resp.status = false := by
    simp [nullBodyStatus]; omega
  cases hu : userMessage (ms.or (.arr [])) with
  | error e => simp [hu, bind, Except.bind] at hexcerpt
  | ok u =>
    simp only [hu, bind, Except.bind] at hexcerpt
    simp only [chatCompletion] at hupstream
    simp only [handlePost, Js.run, ne_eq, not_true_eq_false, if_false, Js.bind_eq, hjson, hmodel,
      hmessages, Js.bind_lift_ok, hsupported, hu, hexcerpt, hkey, hbearer, Bool.not_false, Bool.not_true,
      Bool.false_eq_true, if_true, if_false, bind, Except.bind, pure, Except.pure,
      Js.tryCatch_apply, Js.bind_log_apply, Js.bind_fetch_apply, hupstream, hok, htext,
      Js.lift_apply, Response.new_text _ resp.status (by omega) hnull]
    rfl

/-- C5 at `{"model": "gpt-4o", "messages": [{"role": "user", "content": "hi"}]}`, key `sk-test`,
upstream status 429 with body `rate limited`: status 429, body `OpenAI API error: 429`. -/
theorem C5_upstream_error_mirrored_witness :
    (handlePost
        ⟨"POST", "/chat", .ok (.obj [("model", .str "gpt-4o"),
          ("messages", .arr [.obj [("role", .str "user"), ("content", .str "hi")]])])⟩
        "/chat" ⟨.str "sk-test"⟩
        (fun _ => .ok ⟨429, .ok "rate limited", .error ⟨"SyntaxError", "Unexpected token"⟩⟩)).run =
      (⟨[.upstreamError 429 "rate limited"],
        [chatCompletion (.str "gpt-4o")
          (.arr [.obj [("role", .str "user"), ("content", .str "hi")]]) "sk-test"]⟩,
       .ok ⟨429, corsHeaders ++ [("content-type", "text/plain;charset=UTF-8")],
            some "OpenAI API error: 429"⟩) :=
  C5_upstream_error_mirrored _ _ _ _ (.str "gpt-4o")
    (.arr [.obj [("role", .str "user"), ("content", .str "hi")]]) (.str "hi") "sk-test"
    "rate limited"
    ⟨429, .ok "rate limited", .error ⟨"SyntaxError", "Unexpected token"⟩⟩
    rfl rfl rfl rfl rfl rfl rfl rfl (by decide) rfl

/-! ## C6: the completion is returned in full -/

theorem handlePost_completion (request : Request) (env : Env) (upstream : Upstream)
    (requestData m ms excerpt data choices first message : JSValue) (key u c : JSString)
    (resp : UpstreamResponse)
    (hjson : request.json = .ok requestData)
    (hmodel : getProp requestData "model" = .ok m)
    (hmessages : getProp requestData "messages" = .ok ms)
    (hsupported : includes SUPPORTED_MODELS (m.or (.str "gpt-4o-mini")) = true)
    (hexcerpt : (userMessage (ms.or (.arr [])) >>= truncated "userMessage") = .ok excerpt)
    (hlogged : toStr excerpt = .ok u)
    (hkey : truthy env.OPENAI_API_KEY = true)
    (hbearer : toStr env.OPENAI_API_KEY = .ok key)
    (hupstream : upstream (chatCompletion (m.or (.str "gpt-4o-mini")) (ms.or (.arr [])) key) = .ok resp)
    (hok : resp.ok = true)
    (hdata : resp.json = .ok data)
    (hchoices : getProp data "choices" = .ok choices)
    (hfirst : getIndex choices (.ofNat 0) = .ok first)
    (hmessage : getProp first "message" = .ok message)
    (hcontent : getProp message "content" = .ok (.str c)) :
    (handlePost request "/chat" env upstream).run =
      (⟨[.conversation u (if 100 < c.length then c.take 100 ++ utf16 "..." else c)],
        [chatCompletion (m.or (.str "gpt-4o-mini")) (ms.or (.arr [])) key]⟩,
       .ok ⟨200, ("Content-Type", "text/plain") :: corsHeaders, some (toUSV c)⟩) := by
  have hnew : Response.new (some c) 200 (("Content-Type", "text/plain") :: corsHeaders) =
      .ok ⟨200, ("Content-Type", "text/plain") :: corsHeaders, some (toUSV c)⟩ := by
    have h1 : nullBodyStatus 200 = false := by decide
    have h2 : hasContentType (("Content-Type", "text/plain") :: corsHeaders) = true := by decide
    simp [Response.new, h1, h2]
  cases hu : userMessage (ms.or (.arr [])) with
  | error e => simp [hu, bind, Except.bind] at hexcerpt
  | ok um =>
    simp only [hu, bind, Except.bind] at hexcerpt
    simp only [chatCompletion] at hupstream
    simp only [handlePost, Js.run, ne_eq, not_true_eq_false, if_false, Js.bind_eq, hjson, hmodel,
      hmessages, Js.bind_lift_ok, hsupported, hu, hexcerpt, hkey, hbearer, Bool.not_false, Bool.not_true,
      Bool.false_eq_true, if_true, if_false, bind, Except.bind, pure, Except.pure,
      Js.tryCatch_apply, Js.bind_log_apply, Js.bind_fetch_apply, hupstream, hok, hdata, hchoices,
      hfirst, hmessage, hcontent, truncated_str, hlogged, toStr, bodyInit, Except.map, hnew,
      Js.lift_apply]
    rfl

/-- C6 does not hold for every message list. With the default model and a configured key, the
upstream call is made and succeeds with `choices[0].message.content = "Hello there"`, but the last
message's content is `{"toString": 1}`: the log line of line 175 converts it to a string, which
throws, and the response is 500 instead of 200 with the completion. -/
theorem C6_counterexample_logged_message_without_text :
    (handlePost
        ⟨"POST", "/chat", .ok (.obj
          [("messages",
            .arr [.obj [("role", .str "user"), ("content", .obj [("toString", .num (.ofNat 1))])]])])⟩
        "/chat" ⟨.str "sk-test"⟩
        (fun _ => .ok ⟨200, .ok "", .ok (.obj [("choices",
          .arr [.obj [("message", .obj [("content", .str "Hello there")])]])])⟩)).run =
      (⟨[.chatError "Cannot convert object to primitive value"],
        [chatCompletion (.str "gpt-4o-mini")
          (.arr [.obj [("role", .str "user"), ("content", .obj [("toString", .num (.ofNat 1))])]])
          "sk-test"]⟩,
       .ok ⟨500, corsHeaders ++ [("content-type", "text/plain;charset=UTF-8")],
            some "Error: Cannot convert object to primitive value"⟩) :=
  rfl

/-- C6, for a logging excerpt that has a string conversion. For every POST /chat request that
reaches the upstream call (the body parses, the defaulted model is supported, the logging excerpt
of the messages is computed, the key is truthy and has a text) and whose logging excerpt has a
string conversion `u` (`hlogged`; every string, number and boolean has one): if the upstream
answers with a success status and a JSON body whose `choices[0].message.content` is the string
`c`, then `handlePost` answers status 200 with `Content-Type: text/plain` and the body `c`, in
full whatever the length of `c`, sent as the text of `c` (an unpaired surrogate of `c` is sent as
`U+FFFD`); only the log line carries the excerpts, `c` cut to its first 100 UTF-16 code units
plus `...` when it has more. -/
theorem C6_completion_returned_in_full (request : Request) (env : Env) (upstream : Upstream)
    (requestData m ms excerpt data choices first message : JSValue) (key u c : JSString)
    (resp : UpstreamResponse)
    (hjson : request.json = .ok requestData)
    (hmodel : getProp requestData "model" = .ok m)
    (hmessages : getProp requestData "messages" = .ok ms)
    (hsupported : includes SUPPORTED_MODELS (m.or (.str "gpt-4o-mini")) = true)
    (hexcerpt : (userMessage (ms.or (.arr [])) >>= truncated "userMessage") = .ok excerpt)
    (hlogged : toStr excerpt = .ok u)
    (hkey : truthy env.OPENAI_API_KEY = true)
    (hbearer : toStr env.OPENAI_API_KEY = .ok key)
    (hupstream : upstream (chatCompletion (m.or (.str "gpt-4o-mini")) (ms.or (.arr [])) key) = .ok resp)
    (hok : resp.ok = true)
    (hdata : resp.json = .ok data)
    (hchoices : getProp data "choices" = .ok choices)
    (hfirst : getIndex choices (.ofNat 0) = .ok first)
    (hmessage : getProp first "message" = .ok message)
    (hcontent : getProp message "content" = .ok (.str c)) :
    (handlePost request "/chat" env upstream).run =
      (⟨[.conversation u (if 100 < c.length then c.take 100 ++ utf16 "..." else c)],
        [chatCompletion (m.or (.str "gpt-4o-mini")) (ms.or (.arr [])) key]⟩,
       .ok ⟨200, ("Content-Type", "text/plain") :: corsHeaders, some (toUSV c)⟩) :=
  handlePost_completion request env upstream requestData m ms excerpt data choices first message
    key u c resp hjson hmodel hmessages hsupported hexcerpt hlogged hkey hbearer hupstream hok
    hdata hchoices hfirst hmessage hcontent

set_option maxRecDepth 100000 in
/-- C6 at `{"model": "gpt-4o", "messages": [{"role": "user", "content": "hi"}]}`, key `sk-test`,
upstream 200 with `{"choices": [{"message": {"content": "Hello there"}}]}`. -/
theorem C6_completion_returned_in_full_witness :
    (handlePost
        ⟨"POST", "/chat", .ok (.obj [("model", .str "gpt-4o"),
          ("messages", .arr [.obj [("role", .str "user"), ("content", .str "hi")]])])⟩
        "/chat" ⟨.str "sk-test"⟩
        (fun _ => .ok ⟨200, .ok "", .ok (.obj [("choices",
          .arr [.obj [("message", .obj [("content", .str "Hello there")])]])])⟩)).run =
      (⟨[.conversation "hi" "Hello there"],
        [chatCompletion (.str "gpt-4o")
          (.arr [.obj [("role", .str "user"), ("content", .str "hi")]]) "sk-test"]⟩,
       .ok ⟨200, ("Content-Type", "text/plain") :: corsHeaders, some "Hello there"⟩) :=
  C6_completion_returned_in_full _ _ _ _ (.str "gpt-4o")
    (.arr [.obj [("role", .str "user"), ("content", .str "hi")]]) (.str "hi")
    (.obj [("choices", .arr [.obj [("message", .obj [("content", .str "Hello there")])]])])
    (.arr [.obj [("message", .obj [("content", .str "Hello there")])]])
    (.obj [("message", .obj [("content", .str "Hello there")])])
    (.obj [("content", .str "Hello there")])
    "sk-test" "hi" "Hello there"
    ⟨200, .ok "", .ok (.obj [("choices",
      .arr [.obj [("message", .obj [("content", .str "Hello there")])]])])⟩
    rfl rfl rfl rfl rfl rfl rfl rfl rfl rfl rfl rfl rfl rfl rfl

/-! ## C7: a missing or falsy model is the default model -/

theorem lookup_setProp_self (props : List (JSString × JSValue)) (key : JSString) (v : JSValue) :
    (setProp props key v).lookup key = some v := by
  induction props with
  | nil => simp [setProp, List.lookup]
  | cons p rest ih =>
    obtain ⟨k, w⟩ := p
    by_cases h : k = key
    · simp [setProp, h, List.lookup]
    · have h2 : (key == k) = false := by
        simpa using fun h3 : key = k => h h3.symm
      simp [setProp, h, List.lookup, h2, ih]

theorem lookup_setProp_other (props : List (JSString × JSValue)) (key other : JSString)
    (v : JSValue) (hne : other ≠ key) :
    (setProp props key v).lookup other = props.lookup other := by
  induction props with
  | nil =>
    have h2 : (other == key) = false := by simpa using hne
    simp [setProp, List.lookup, h2]
  | cons p rest ih =>
    obtain ⟨k, w⟩ := p
    by_cases h : k = key
    · subst h
      have h2 : (other == k) = false := by simpa using hne
      simp [setProp, List.lookup, h2]
    · cases h3 : other == k <;> simp [setProp, h, List.lookup, h3, ih]

theorem or_default_of_falsy (props : List (JSString × JSValue)) (d : JSValue)
    (hfalsy : ∀ m, props.lookup (utf16 "model") = some m → truthy m = false) :
    ((props.lookup (utf16 "model")).getD .undefined).or d = d := by
  cases h : props.lookup (utf16 "model") with
  | none => simp [JSValue.or, truthy]
  | some m => simp [JSValue.or, hfalsy m h]

/-- C7. For every JSON object body `b` (its own properties are `props`) that has no `model`
property or a falsy one (`""`, `null`, `0`, `false`), and for every method, path, environment and
upstream: `handlePost` on `b` and `handlePost` on `b` with `model` set to `"gpt-4o-mini"` run
alike, with the same response (status, headers, body), the same upstream requests and the same
log. -/
theorem C7_missing_model_is_default (props : List (JSString × JSValue)) (method pathname : String)
    (env : Env) (upstream : Upstream)
    (hfalsy : ∀ m, props.lookup (utf16 "model") = some m → truthy m = false) :
    (handlePost ⟨method, pathname, .ok (.obj props)⟩ pathname env upstream).run =
      (handlePost ⟨method, pathname, .ok (.obj (setProp props "model" (.str "gpt-4o-mini")))⟩
        pathname env upstream).run := by
  have h1 : ((setProp props "model" (.str "gpt-4o-mini")).lookup (utf16 "model")).getD .undefined =
      .str "gpt-4o-mini" := by
    rw [lookup_setProp_self]; rfl
  have h2 : (setProp props "model" (.str "gpt-4o-mini")).lookup (utf16 "messages") =
      props.lookup (utf16 "messages") := lookup_setProp_other _ _ _ _ (by decide)
  have h3 : (JSValue.str "gpt-4o-mini").or (.str "gpt-4o-mini") = .str "gpt-4o-mini" := rfl
  simp only [handlePost, Js.bind_eq, Js.bind_lift_ok, getProp, h1, h2, h3,
    or_default_of_falsy props _ hfalsy]

/-- C7 at `{"messages": [{"role": "user", "content": "hi"}]}` with a configured key and an
upstream that answers 429: both runs are the run of the default model; and at the falsy models
`""`, `null`, `0` and `false`. -/
theorem C7_missing_model_is_default_witness :
    ((handlePost
        ⟨"POST", "/chat",
          .ok (.obj [("messages", .arr [.obj [("role", .str "user"), ("content", .str "hi")]])])⟩
        "/chat" ⟨.str "sk-test"⟩
        (fun _ => .ok ⟨429, .ok "rate limited", .error ⟨"SyntaxError", "Unexpected token"⟩⟩)).run =
      (handlePost
        ⟨"POST", "/chat",
          .ok (.obj [("messages", .arr [.obj [("role", .str "user"), ("content", .str "hi")]]),
            ("model", .str "gpt-4o-mini")])⟩
        "/chat" ⟨.str "sk-test"⟩
        (fun _ => .ok ⟨429, .ok "rate limited", .error ⟨"SyntaxError", "Unexpected token"⟩⟩)).run) ∧
    truthy (.str "") = false ∧ truthy .null = false ∧ truthy (.num (.ofNat 0)) = false ∧
    truthy (.bool false) = false :=
  ⟨C7_missing_model_is_default
      [("messages", .arr [.obj [("role", .str "user"), ("content", .str "hi")]])]
      "POST" "/chat" ⟨.str "sk-test"⟩
      (fun _ => .ok ⟨429, .ok "rate limited", .error ⟨"SyntaxError", "Unexpected token"⟩⟩)
      (by intro m h; cases h),
    rfl, rfl, rfl, rfl⟩

/-! ## C9: the logging excerpt -/

theorem or_empty_of_str (s : JSString) : (JSValue.str s).or (.str []) = .str s := by
  by_cases hs : s = []
  · subst hs; rfl
  · simp [JSValue.or, truthy, hs]

theorem getProp_arr_length (items : List JSValue) :
    getProp (.arr items) "length" = .ok (.num (.ofNat items.length)) := by
  simp [getProp]

theorem userMessage_last (items : List JSValue) (last : JSValue) (s : JSString)
    (hlen : items.length + 1 < 2 ^ 53)
    (h : getProp last "content" = .ok (.str s)) :
    userMessage (.arr (items ++ [last])) = .ok (.str s) := by
  have hnull : last.isNullish = false := by
    cases last <;> first | rfl | cases h
  have hget : (items ++ [last]).get? items.length = some last := by
    simp
  simp only [userMessage, getProp_arr_length, if_true, List.length_append, List.length_singleton,
    greaterThan, toNumber, Except.map, ofNat_greaterThan _ 0 (by decide),
    ofNat_succ_minusOne _ hlen, getIndex, ofNat_toIndex _ (Nat.lt_of_succ_lt hlen), Option.bind, hget, bind, Except.bind, pure, Except.pure, Option.map,
    Option.getD, hnull, Bool.false_eq_true, if_false, h, or_empty_of_str,
    Nat.zero_lt_succ, decide_True]

theorem userMessage_none : userMessage (.arr []) = .ok (.str []) := rfl

theorem excerpt_length (t : JSString) :
    (if 100 < t.length then t.take 100 ++ utf16 "..." else t).length =
      if 100 < t.length then 103 else t.length := by
  have h3 : (utf16 "...").length = 3 := rfl
  split
  · rw [List.length_append, List.length_take, h3]
    omega
  · rfl

theorem excerpt_of_messages (ms : JSValue) (s : JSString)
    (hlast : (ms.or (.arr []) = .arr [] ∧ s = []) ∨
      ∃ items last, ms = .arr (items ++ [last]) ∧ items.length + 1 < 2 ^ 32 ∧
        getProp last "content" = .ok (.str s)) :
    (userMessage (ms.or (.arr [])) >>= truncated "userMessage") =
      .ok (.str (if 100 < s.length then s.take 100 ++ utf16 "..." else s)) := by
  rcases hlast with ⟨hnone, hs⟩ | ⟨items, last, hms, hlen, hcontent⟩
  · subst hs
    rw [hnone]
    rfl
  · have hor : ms.or (.arr []) = .arr (items ++ [last]) := by
      subst hms
      rfl
    have hlen2 : items.length + 1 < 2 ^ 53 := by
      have : (2 : Nat) ^ 32 < 2 ^ 53 := by decide
      omega
    rw [hor, userMessage_last items last s hlen2 hcontent]
    exact truncated_str "userMessage" s

set_option maxRecDepth 100000 in
/-- C9 does not hold when characters are counted as such. A message of 60 characters, each the
emoji `U+1F600`, has at most 100 characters, yet it is not logged as it is: it has 120 UTF-16 code
units, which is what `length` counts at line 131, so the log line carries its first 100 code
units, 50 characters, followed by `...`. -/
theorem C9_counterexample_astral_message :
    (String.mk (List.replicate 60 (Char.ofNat 128512))).length = 60 ∧
    ((handlePost
        ⟨"POST", "/chat", .ok (.obj [("model", .str "gpt-4o"),
          ("messages", .arr [.obj [("role", .str "user"),
            ("content", .str (utf16 (String.mk (List.replicate 60 (Char.ofNat 128512)))))]])])⟩
        "/chat" ⟨.str "sk-test"⟩
        (fun _ => .ok ⟨200, .ok "", .ok (.obj [("choices",
          .arr [.obj [("message", .obj [("content", .str "Hello there")])]])])⟩)).run).1.log =
      [.conversation (utf16 (String.mk (List.replicate 50 (Char.ofNat 128512))) ++ utf16 "...")
        "Hello there"] ∧
    utf16 (String.mk (List.replicate 50 (Char.ofNat 128512))) ++ utf16 "..." ≠
      utf16 (String.mk (List.replicate 60 (Char.ofNat 128512))) :=
  ⟨rfl, rfl, by decide⟩

/-- C9, with lengths in UTF-16 code units. For every POST /chat request that reaches the log line
of line 175 (the body parses, the defaulted model is supported, the key is truthy and has a text,
the upstream answers with a success status and a JSON body whose `choices[0].message.content` is
the string `c`), where `s` is the string content of the last message of the message array, or the
empty string when there are no messages (`hlast`): `handlePost` logs exactly one line, `User: "u"
| AI: "a"`, in which `u` is the excerpt of `s` and `a` the excerpt of `c`. The excerpt of a string
is the string itself when it has at most 100 code units, and its first 100 code units followed by
`...`, 103 code units, when it has more; so it is 103 code units for a string of 150, the string
unchanged for one of 50, and never more than 103. -/
theorem C9_logging_excerpt (request : Request) (env : Env) (upstream : Upstream)
    (requestData m ms data choices first message : JSValue) (key s c : JSString)
    (resp : UpstreamResponse)
    (hjson : request.json = .ok requestData)
    (hmodel : getProp requestData "model" = .ok m)
    (hmessages : getProp requestData "messages" = .ok ms)
    (hsupported : includes SUPPORTED_MODELS (m.or (.str "gpt-4o-mini")) = true)
    (hlast : (ms.or (.arr []) = .arr [] ∧ s = []) ∨
      ∃ items last, ms = .arr (items ++ [last]) ∧ items.length + 1 < 2 ^ 32 ∧
        getProp last "content" = .ok (.str s))
    (hkey : truthy env.OPENAI_API_KEY = true)
    (hbearer : toStr env.OPENAI_API_KEY = .ok key)
    (hupstream : upstream (chatCompletion (m.or (.str "gpt-4o-mini")) (ms.or (.arr [])) key) = .ok resp)
    (hok : resp.ok = true)
    (hdata : resp.json = .ok data)
    (hchoices : getProp data "choices" = .ok choices)
    (hfirst : getIndex choices (.ofNat 0) = .ok first)
    (hmessage : getProp first "message" = .ok message)
    (hcontent : getProp message "content" = .ok (.str c)) :
    ∃ u a : JSString,
      ((handlePost request "/chat" env upstream).run).1.log = [.conversation u a] ∧
      (userMessage (ms.or (.arr [])) = .ok (.str s) ∧
        truncated "userMessage" (.str s) = .ok (.str u) ∧
        truncated "content" (.str c) = .ok (.str a)) ∧
      ((s.length ≤ 100 → u = s) ∧
        (100 < s.length → u = s.take 100 ++ utf16 "..." ∧ u.length = 103) ∧
        (s.length = 150 → u.length = 103) ∧ (s.length = 50 → u = s) ∧ u.length ≤ 103) ∧
      ((c.length ≤ 100 → a = c) ∧
        (100 < c.length → a = c.take 100 ++ utf16 "..." ∧ a.length = 103) ∧
        (c.length = 150 → a.length = 103) ∧ (c.length = 50 → a = c) ∧ a.length ≤ 103) := by
  have hfacts : ∀ t : JSString,
      (t.length ≤ 100 → (if 100 < t.length then t.take 100 ++ utf16 "..." else t) = t) ∧
      (100 < t.length →
        (if 100 < t.length then t.take 100 ++ utf16 "..." else t) = t.take 100 ++ utf16 "..." ∧
        (if 100 < t.length then t.take 100 ++ utf16 "..." else t).length = 103) ∧
      (t.length = 150 → (if 100 < t.length then t.take 100 ++ utf16 "..." else t).length = 103) ∧
      (t.length = 50 → (if 100 < t.length then t.take 100 ++ utf16 "..." else t) = t) ∧
      (if 100 < t.length then t.take 100 ++ utf16 "..." else t).length ≤ 103 := by
    intro t
    have hl := excerpt_length t
    refine ⟨fun h => if_neg (by omega), fun h => ⟨if_pos h, ?_⟩, fun h => ?_,
      fun h => if_neg (by omega), ?_⟩
    · rw [hl, if_pos h]
    · rw [hl, if_pos (by omega)]
    · rw [hl]
      split <;> omega
  have huser : userMessage (ms.or (.arr [])) = .ok (.str s) := by
    rcases hlast with ⟨hnone, hs⟩ | ⟨items, last, hms, hlen, hcontent2⟩
    · subst hs
      rw [hnone]
      rfl
    · subst hms
      have hlen2 : items.length + 1 < 2 ^ 53 := by
        have : (2 : Nat) ^ 32 < 2 ^ 53 := by decide
        omega
      exact userMessage_last items last s hlen2 hcontent2
  refine ⟨if 100 < s.length then s.take 100 ++ utf16 "..." else s,
    if 100 < c.length then c.take 100 ++ utf16 "..." else c, ?_,
    ⟨huser, truncated_str _ s, truncated_str _ c⟩, hfacts s, hfacts c⟩
  rw [handlePost_completion request env upstream requestData m ms _ data choices first message
    key _ c resp hjson hmodel hmessages hsupported (excerpt_of_messages ms s hlast) rfl hkey
    hbearer hupstream hok hdata hchoices hfirst hmessage hcontent]

set_option maxRecDepth 100000 in
/-- C9 at a message of 150 letters `a` after an earlier message, with the completion
`Hello there`: the log line carries the first 100 letters followed by `...` and the completion
unchanged. -/
theorem C9_logging_excerpt_witness :
    ∃ u a : JSString,
      ((handlePost
          ⟨"POST", "/chat", .ok (.obj [("model", .str "gpt-4o"),
            ("messages", .arr [.obj [("role", .str "system"), ("content", .str "be brief")],
              .obj [("role", .str "user"), ("content", .str (List.replicate 150 97))]])])⟩
          "/chat" ⟨.str "sk-test"⟩
          (fun _ => .ok ⟨200, .ok "", .ok (.obj [("choices",
            .arr [.obj [("message", .obj [("content", .str "Hello there")])]])])⟩)).run).1.log =
        [.conversation u a] ∧
      u = List.replicate 100 97 ++ utf16 "..." ∧ u.length = 103 ∧ a = utf16 "Hello there" := by
  obtain ⟨u, a, hlog, _, ⟨_, hu, _, _, _⟩, ⟨ha, _, _, _, _⟩⟩ :=
    C9_logging_excerpt
      ⟨"POST", "/chat", .ok (.obj [("model", .str "gpt-4o"),
        ("messages", .arr [.obj [("role", .str "system"), ("content", .str "be brief")],
          .obj [("role", .str "user"), ("content", .str (List.replicate 150 97))]])])⟩
      ⟨.str "sk-test"⟩
      (fun _ => .ok ⟨200, .ok "", .ok (.obj [("choices",
        .arr [.obj [("message", .obj [("content", .str "Hello there")])]])])⟩)
      _ (.str "gpt-4o")
      (.arr [.obj [("role", .str "system"), ("content", .str "be brief")],
        .obj [("role", .str "user"), ("content", .str (List.replicate 150 97))]])
      (.obj [("choices", .arr [.obj [("message", .obj [("content", .str "Hello there")])]])])
      (.arr [.obj [("message", .obj [("content", .str "Hello there")])]])
      (.obj [("message", .obj [("content", .str "Hello there")])])
      (.obj [("content", .str "Hello there")])
      "sk-test" (List.replicate 150 97) "Hello there"
      ⟨200, .ok "", .ok (.obj [("choices",
        .arr [.obj [("message", .obj [("content", .str "Hello there")])]])])⟩
      rfl rfl rfl rfl
      (Or.inr ⟨[.obj [("role", .str "system"), ("content", .str "be brief")]],
        .obj [("role", .str "user"), ("content", .str (List.replicate 150 97))], rfl, by decide,
        rfl⟩)
      rfl rfl rfl rfl rfl rfl rfl rfl rfl
  exact ⟨u, a, hlog, (hu (by decide)).1, (hu (by decide)).2, ha (by decide)⟩
/-! ## C3: the routes other than `POST /chat` -/

/-- C3. For every request that is not `POST /chat`, the `fetch` handler returns a response whose
status and body follow from method and path: `OPTIONS` on any path gives 200 with the null body;
`GET` on `/`, `/health` or `/models` gives 200; `GET` elsewhere and `POST` elsewhere give 404 `Not
Found`; any other method gives 405 `Method not allowed` on every path. The response is the same
for every other request with that method and path, whatever its body, the environment, the
upstream and the clock. -/
theorem C3_routing (request : Request) (env : Env) (upstream : Upstream) (startTime endTime : Int)
    (h : ¬ (request.method = "POST" ∧ request.pathname = "/chat")) :
    ∃ r, ((fetch request env upstream startTime endTime).run).2 = .ok r ∧
      (request.method = "OPTIONS" → r.status = 200 ∧ r.body = none) ∧
      (request.method = "GET" →
        (request.pathname = "/" ∨ request.pathname = "/health" ∨ request.pathname = "/models" →
          r.status = 200) ∧
        (request.pathname ≠ "/" ∧ request.pathname ≠ "/health" ∧ request.pathname ≠ "/models" →
          r.status = 404 ∧ r.body = some "Not Found")) ∧
      (request.method = "POST" → r.status = 404 ∧ r.body = some "Not Found") ∧
      (request.method ≠ "OPTIONS" ∧ request.method ≠ "GET" ∧ request.method ≠ "POST" →
        r.status = 405 ∧ r.body = some "Method not allowed") ∧
      (∀ (other : Request) (env2 : Env) (upstream2 : Upstream) (startTime2 endTime2 : Int),
        other.method = request.method → other.pathname = request.pathname →
        ((fetch other env2 upstream2 startTime2 endTime2).run).2 = .ok r) := by
  have hgo : "GET" ≠ "OPTIONS" := by decide
  have hpo : "POST" ≠ "OPTIONS" := by decide
  have hpg : "POST" ≠ "GET" := by decide
  by_cases ho : request.method = "OPTIONS"
  · refine ⟨⟨200, corsHeaders, none⟩, by rw [fetch_options _ _ _ _ _ ho], fun _ => ⟨rfl, rfl⟩,
      fun hm => absurd (ho.symm.trans hm) hgo.symm, fun hm => absurd (ho.symm.trans hm) hpo.symm,
      fun hn => absurd ho hn.1, ?_⟩
    intro other env2 upstream2 s2 e2 hm hp
    rw [fetch_options _ _ _ _ _ (hm.trans ho)]
  by_cases hg : request.method = "GET"
  · by_cases hf : request.pathname = "/" ∨ request.pathname = "/health" ∨
        request.pathname = "/models"
    · obtain ⟨body, hb⟩ := handleGet_found _ hf
      refine ⟨⟨200, ("Content-Type", "application/json") :: corsHeaders, some body⟩,
        by rw [fetch_get _ _ _ _ _ _ hg hb], fun hm => absurd hm ho,
        fun _ => ⟨fun _ => rfl, fun hn => ?_⟩, fun hm => absurd (hm.symm.trans hg) hpg,
        fun hn => absurd hg hn.2.1, ?_⟩
      · rcases hf with h1 | h1 | h1
        · exact absurd h1 hn.1
        · exact absurd h1 hn.2.1
        · exact absurd h1 hn.2.2
      · intro other env2 upstream2 s2 e2 hm hp
        have hb2 : handleGet other.pathname = .ok
            ⟨200, ("Content-Type", "application/json") :: corsHeaders, some body⟩ := by
          rw [hp]; exact hb
        rw [fetch_get _ _ _ _ _ _ (hm.trans hg) hb2]
    · have h1 : request.pathname ≠ "/" := fun h1 => hf (Or.inl h1)
      have h2 : request.pathname ≠ "/health" := fun h2 => hf (Or.inr (Or.inl h2))
      have h3 : request.pathname ≠ "/models" := fun h3 => hf (Or.inr (Or.inr h3))
      have hnf := handleGet_notFound request.pathname h1 h2 h3
      refine ⟨⟨404, corsHeaders ++ [("content-type", "text/plain;charset=UTF-8")],
          some "Not Found"⟩,
        by rw [fetch_get _ _ _ _ _ _ hg hnf], fun hm => absurd hm ho,
        fun _ => ⟨fun hn => absurd hn hf, fun _ => ⟨rfl, rfl⟩⟩,
        fun hm => absurd (hm.symm.trans hg) hpg, fun hn => absurd hg hn.2.1, ?_⟩
      intro other env2 upstream2 s2 e2 hm hp
      have hb2 : handleGet other.pathname = .ok
          ⟨404, corsHeaders ++ [("content-type", "text/plain;charset=UTF-8")],
            some "Not Found"⟩ := by
        rw [hp]; exact hnf
      rw [fetch_get _ _ _ _ _ _ (hm.trans hg) hb2]
  by_cases hp : request.method = "POST"
  · have hpath : request.pathname ≠ "/chat" := fun hc => h ⟨hp, hc⟩
    have hnf := handlePost_notFound request request.pathname env upstream hpath
    refine ⟨⟨404, corsHeaders ++ [("content-type", "text/plain;charset=UTF-8")],
        some "Not Found"⟩,
      by rw [fetch_post _ _ _ _ _ _ _ hp hnf], fun hm => absurd hm ho, fun hm => absurd hm hg,
      fun _ => ⟨rfl, rfl⟩, fun hn => absurd hp hn.2.2, ?_⟩
    intro other env2 upstream2 s2 e2 hm hq
    have hpath2 : other.pathname ≠ "/chat" := by rw [hq]; exact hpath
    rw [fetch_post _ _ _ _ _ _ _ (hm.trans hp)
      (handlePost_notFound other other.pathname env2 upstream2 hpath2)]
  · refine ⟨⟨405, [("content-type", "text/plain;charset=UTF-8")], some "Method not allowed"⟩,
      by rw [fetch_otherMethod _ _ _ _ _ ho hg hp], fun hm => absurd hm ho,
      fun hm => absurd hm hg, fun hm => absurd hm hp, fun _ => ⟨rfl, rfl⟩, ?_⟩
    intro other env2 upstream2 s2 e2 hm hq
    rw [fetch_otherMethod _ _ _ _ _ (by rw [hm]; exact ho) (by rw [hm]; exact hg)
      (by rw [hm]; exact hp)]

/-- C3 at `DELETE /chat`: status 405 with body `Method not allowed`. -/
theorem C3_routing_witness :
    ∃ r, ((fetch ⟨"DELETE", "/chat", .ok (.obj [])⟩ ⟨.str "sk-test"⟩
        (fun _ => .error ⟨"TypeError", "fetch failed"⟩) 0 7).run).2 = .ok r ∧
      r.status = 405 ∧ r.body = some "Method not allowed" := by
  obtain ⟨r, hr, _, _, _, h405, _⟩ :=
    C3_routing ⟨"DELETE", "/chat", .ok (.obj [])⟩ ⟨.str "sk-test"⟩
      (fun _ => .error ⟨"TypeError", "fetch failed"⟩) 0 7 (by decide)
  exact ⟨r, hr, h405 (by decide)⟩

/-! ## C2: the CORS headers -/

/-- C2 fails on the 405 path. A request whose method is none of `OPTIONS`, `GET` and `POST` gets
the response of line 42, which is built without `corsHeaders`: status 405 and none of the three
CORS headers. -/
theorem C2_method_not_allowed_without_cors (request : Request) (env : Env) (upstream : Upstream)
    (startTime endTime : Int) (h0 : request.method ≠ "OPTIONS") (h1 : request.method ≠ "GET")
    (h2 : request.method ≠ "POST") :
    ((fetch request env upstream startTime endTime).run).2 =
      .ok ⟨405, [("content-type", "text/plain;charset=UTF-8")], some "Method not allowed"⟩ ∧
    ∀ header ∈ corsHeaders,
      header ∉ (⟨405, [("content-type", "text/plain;charset=UTF-8")],
        some "Method not allowed"⟩ : Response).headers := by
  refine ⟨by rw [fetch_otherMethod _ _ _ _ _ h0 h1 h2], ?_⟩
  decide

/-- C2 at `DELETE /`: the 405 response carries no CORS header. -/
theorem C2_method_not_allowed_without_cors_witness :
    ((fetch ⟨"DELETE", "/", .ok .null⟩ ⟨.undefined⟩
        (fun _ => .error ⟨"TypeError", "fetch failed"⟩) 0 7).run).2 =
      .ok ⟨405, [("content-type", "text/plain;charset=UTF-8")], some "Method not allowed"⟩ :=
  (C2_method_not_allowed_without_cors ⟨"DELETE", "/", .ok .null⟩ ⟨.undefined⟩
    (fun _ => .error ⟨"TypeError", "fetch failed"⟩) 0 7 (by decide) (by decide) (by decide)).1


/-! ## C10: the request line -/

theorem handleGet_ok (pathname : String) : ∃ r, handleGet pathname = .ok r := by
  by_cases hf : pathname = "/" ∨ pathname = "/health" ∨ pathname = "/models"
  · obtain ⟨body, hb⟩ := handleGet_found _ hf
    exact ⟨_, hb⟩
  · exact ⟨_, handleGet_notFound pathname (fun h => hf (Or.inl h))
      (fun h => hf (Or.inr (Or.inl h))) (fun h => hf (Or.inr (Or.inr h)))⟩

/-- C10 does not hold for a preflight. An `OPTIONS` preflight is answered at line 31, before the
request line of line 46 is reached: the run leaves the log empty. -/
theorem C10_counterexample_preflight_not_logged :
    (fetch ⟨"OPTIONS", "/chat", .error ⟨"SyntaxError", "Unexpected end of JSON input"⟩⟩
        ⟨.str "sk-test"⟩ (fun _ => .error ⟨"TypeError", "fetch failed"⟩) 0 7).run =
      (⟨[], []⟩, .ok ⟨200, corsHeaders, none⟩) :=
  rfl

/-- C10, for the routed methods. For every request whose method is not `OPTIONS`, whatever its
path, body, the environment and the upstream, the `fetch` handler returns a response and emits
exactly one request line, after everything the route handler logged: the line is made of the
request's method, its path, the status of the response returned and the elapsed milliseconds. An
`OPTIONS` preflight is answered with nothing logged. -/
theorem C10_request_line (request : Request) (env : Env) (upstream : Upstream)
    (startTime endTime : Int) :
    (request.method ≠ "OPTIONS" →
      ∃ (handlerLog : List LogEntry) (calls : List UpstreamRequest) (response : Response),
        (fetch request env upstream startTime endTime).run =
          (⟨handlerLog ++
              [.request request.method request.pathname response.status (endTime - startTime)],
            calls⟩, .ok response) ∧
        (∀ e ∈ handlerLog, e.isRequest = false) ∧
        (LogEntry.request request.method request.pathname response.status
            (endTime - startTime)).text =
          request.method ++ " " ++ request.pathname ++ " - " ++ toString response.status ++
            " (" ++ toString (endTime - startTime) ++ "ms)") ∧
    (request.method = "OPTIONS" →
      (fetch request env upstream startTime endTime).run =
        (⟨[], []⟩, .ok ⟨200, corsHeaders, none⟩)) := by
  refine ⟨fun h => ?_, fun h => fetch_options _ _ _ _ _ h⟩
  by_cases hg : request.method = "GET"
  · obtain ⟨r, hr⟩ := handleGet_ok request.pathname
    refine ⟨[], [], r, ?_, by simp, rfl⟩
    rw [fetch_get _ _ _ _ _ _ hg hr, hg]
    rfl
  by_cases hp : request.method = "POST"
  · obtain ⟨t1, r, hr⟩ := handlePost_returns request request.pathname env upstream ⟨[], []⟩
    obtain ⟨extra, hlog, hextra⟩ := handlePost_logs request request.pathname env upstream ⟨[], []⟩
    rw [hr] at hlog
    simp only [List.nil_append] at hlog
    refine ⟨extra, t1.calls, r, ?_, hextra, rfl⟩
    rw [fetch_post _ _ _ _ _ t1 r hp hr, hp, hlog]
  · refine ⟨[], [],
      ⟨405, [("content-type", "text/plain;charset=UTF-8")], some "Method not allowed"⟩,
      ?_, by simp, rfl⟩
    rw [fetch_otherMethod _ _ _ _ _ h hg hp]
    rfl

/-- C10 at `POST /chat` with an unsupported model: the handler's own line, then the request line
with status 400. -/
theorem C10_request_line_witness :
    ∃ (handlerLog : List LogEntry) (calls : List UpstreamRequest) (response : Response),
      (fetch ⟨"POST", "/chat", .ok (.obj [("model", .str "not-a-real-model")])⟩ ⟨.str "sk-test"⟩
          (fun _ => .error ⟨"TypeError", "fetch failed"⟩) 0 7).run =
        (⟨handlerLog ++ [.request "POST" "/chat" response.status (7 - 0)], calls⟩, .ok response) ∧
      (∀ e ∈ handlerLog, e.isRequest = false) ∧
      (LogEntry.request "POST" "/chat" response.status (7 - 0)).text =
        "POST" ++ " " ++ "/chat" ++ " - " ++ toString response.status ++ " (" ++
          toString ((7 : Int) - 0) ++ "ms)" :=
  (C10_request_line ⟨"POST", "/chat", .ok (.obj [("model", .str "not-a-real-model")])⟩
    ⟨.str "sk-test"⟩ (fun _ => .error ⟨"TypeError", "fetch failed"⟩) 0 7).1 (by decide)

/-! ## C8: the model list -/

theorem Js.logs_bind_def {α β : Type} (P : LogEntry → Prop) (m : Js α) (f : α → Js β)
    (hm : Js.Logs P m) (hf : ∀ a, Js.Logs P (f a)) : Js.Logs P (Js.bind m f) :=
  Js.logs_bind P m f hm hf

theorem handlePost_supported_logs (request : Request) (env : Env) (upstream : Upstream)
    (requestData m : JSValue)
    (hjson : request.json = .ok requestData)
    (hmodel : getProp requestData "model" = .ok m)
    (hsupported : includes SUPPORTED_MODELS (m.or (.str "gpt-4o-mini")) = true) :
    Js.Logs (fun e => e.isUnsupportedModel = false) (handlePost request "/chat" env upstream) := by
  obtain ⟨ms, hms⟩ := getProp_ok_of_ok hmodel "messages"
  simp only [handlePost, ne_eq, not_true_eq_false, if_false, Js.bind_eq, hjson, hmodel, hms,
    Js.bind_lift_ok, hsupported, Bool.not_true, Bool.false_eq_true]
  repeat' first
    | exact Js.logs_lift _ _
    | exact Js.logs_pure _ _
    | exact Js.logs_fetch _ _ _
    | exact Js.logs_log _ _ rfl
    | apply Js.logs_tryCatch
    | apply Js.logs_ite
    | apply Js.logs_bind_def
    | intro _

set_option maxRecDepth 100000 in
/-- C8. `GET /models` returns status 200 and the JSON text of `{models: [...]}` whose list has six
entries, the i-th being `{id: m, name: m}` for the i-th supported model `m` in declaration order
(`gpt-4o`, `gpt-4o-mini`, `gpt-4-turbo`, `gpt-4`, `gpt-3.5-turbo`, `gpt-4.1-nano`), so every name
equals its id; and a model name is listed exactly when `POST /chat` does not reject a request for
it as unsupported. -/
theorem C8_models_listed :
    handleGet "/models" =
      .ok ⟨200, ("Content-Type", "application/json") :: corsHeaders,
        (stringify (.obj [("models", .arr (SUPPORTED_MODELS.map fun model =>
          JSValue.obj [("id", .str model), ("name", .str model)]))])).map toUSV⟩ ∧
    (stringify (.obj [("models", .arr (SUPPORTED_MODELS.map fun model =>
          JSValue.obj [("id", .str model), ("name", .str model)]))])).map toUSV =
      some "\x7b\"models\":[\x7b\"id\":\"gpt-4o\",\"name\":\"gpt-4o\"\x7d,\x7b\"id\":\"gpt-4o-mini\",\"name\":\"gpt-4o-mini\"\x7d,\x7b\"id\":\"gpt-4-turbo\",\"name\":\"gpt-4-turbo\"\x7d,\x7b\"id\":\"gpt-4\",\"name\":\"gpt-4\"\x7d,\x7b\"id\":\"gpt-3.5-turbo\",\"name\":\"gpt-3.5-turbo\"\x7d,\x7b\"id\":\"gpt-4.1-nano\",\"name\":\"gpt-4.1-nano\"\x7d]\x7d" ∧
    SUPPORTED_MODELS =
      ["gpt-4o", "gpt-4o-mini", "gpt-4-turbo", "gpt-4", "gpt-3.5-turbo", "gpt-4.1-nano"] ∧
    (SUPPORTED_MODELS.map fun model =>
        JSValue.obj [("id", .str model), ("name", .str model)]).length = 6 ∧
    (∀ (request : Request) (env : Env) (upstream : Upstream) (requestData : JSValue)
        (s : JSString),
      request.json = .ok requestData → getProp requestData "model" = .ok (.str s) → s ≠ "" →
      (s ∈ SUPPORTED_MODELS ↔
        (handlePost request "/chat" env upstream).run ≠
          (⟨[.unsupportedModel s], []⟩,
           .ok ⟨400, corsHeaders ++ [("content-type", "text/plain;charset=UTF-8")],
                some (toUSV (utf16 "Unsupported model: " ++ s ++ utf16 ". Supported models: gpt-4o, gpt-4o-mini, gpt-4-turbo, gpt-4, gpt-3.5-turbo, gpt-4.1-nano"))⟩))) := by
  refine ⟨rfl, by decide, rfl, rfl, ?_⟩
  intro request env upstream requestData s hjson hmodel hs
  have hs2 : s ≠ [] := hs
  have hor : (JSValue.str s).or (.str "gpt-4o-mini") = .str s := by
    simp [JSValue.or, truthy, hs2]
  constructor
  · intro hmem hrun
    have hsupported : includes SUPPORTED_MODELS ((JSValue.str s).or (.str "gpt-4o-mini")) = true := by
      rw [hor]
      simpa [includes] using hmem
    obtain ⟨extra, hlog, hextra⟩ :=
      handlePost_supported_logs request env upstream requestData (.str s) hjson hmodel hsupported
        ⟨[], []⟩
    have hrun2 : (handlePost request "/chat" env upstream ⟨[], []⟩) =
        (⟨[.unsupportedModel s], []⟩,
           .ok ⟨400, corsHeaders ++ [("content-type", "text/plain;charset=UTF-8")],
                some (toUSV (utf16 "Unsupported model: " ++ s ++ utf16 ". Supported models: gpt-4o, gpt-4o-mini, gpt-4-turbo, gpt-4, gpt-3.5-turbo, gpt-4.1-nano"))⟩) := hrun
    rw [hrun2] at hlog
    simp only [List.nil_append] at hlog
    have := hextra (.unsupportedModel s) (by rw [← hlog]; simp)
    simp [LogEntry.isUnsupportedModel] at this
  · intro hrun
    by_contra hmem
    apply hrun
    have hunsupported :
        includes SUPPORTED_MODELS ((JSValue.str s).or (.str "gpt-4o-mini")) = false := by
      rw [hor]
      simpa [includes] using hmem
    exact handlePost_unsupported request env upstream requestData (.str s) s hjson hmodel
      hunsupported (by rw [hor]; rfl)


/-! ## The responses that carry the CORS headers -/

theorem Js.yields_lift {α : Type} (Q : α → Prop) (x : Except JSError α)
    (h : ∀ a, x = .ok a → Q a) : Js.Yields Q (Js.lift x) := by
  refine ⟨fun t t1 a ht => ?_⟩
  simp only [Js.lift, Prod.mk.injEq] at ht
  exact h a ht.2

theorem Js.yields_bind {α β : Type} (Q : β → Prop) (m : Js α) (f : α → Js β)
    (hf : ∀ a, Js.Yields Q (f a)) : Js.Yields Q (m >>= f) := by
  refine ⟨fun t t1 b ht => ?_⟩
  rw [Js.bind_eq] at ht
  unfold Js.bind at ht
  rcases hmt : m t with ⟨t2, r⟩
  rw [hmt] at ht
  cases r with
  | error e => simp at ht
  | ok a => exact (hf a).ok t2 t1 b ht

theorem Js.yields_tryCatch {α : Type} (Q : α → Prop) (body : Js α) (handler : JSError → Js α)
    (hb : Js.Yields Q body) (hh : ∀ e, Js.Yields Q (handler e)) :
    Js.Yields Q (Js.tryCatch body handler) := by
  refine ⟨fun t t1 a ht => ?_⟩
  unfold Js.tryCatch at ht
  rcases hmt : body t with ⟨t2, r⟩
  rw [hmt] at ht
  cases r with
  | error e => exact (hh e).ok t2 t1 a ht
  | ok b =>
    simp only [Prod.mk.injEq, Except.ok.injEq] at ht
    exact ht.2 ▸ hb.ok t t2 b hmt

theorem Js.yields_ite {α : Type} (Q : α → Prop) (c : Prop) [Decidable c] (a b : Js α)
    (ha : Js.Yields Q a) (hb : Js.Yields Q b) : Js.Yields Q (if c then a else b) := by
  split <;> assumption

theorem Response.new_cors (body : Option JSString) (status : Nat)
    (headers : List (String × String)) (r : Response)
    (hsub : ∀ header ∈ corsHeaders, header ∈ headers)
    (h : Response.new body status headers = .ok r) : r.HasCors := by
  unfold Response.new at h
  split at h
  · cases h
  · split at h
    · cases h
    · split at h
      · cases h
        exact ⟨fun header hh => List.mem_append.mpr (Or.inl (hsub header hh))⟩
      · cases h
        exact ⟨hsub⟩

theorem Except.bind_cors {α : Type} (x : Except JSError α)
    (k : α → Except JSError Response) (r : Response)
    (hk : ∀ a r, k a = .ok r → r.HasCors) (h : (x >>= k) = .ok r) : r.HasCors := by
  cases x with
  | error e => cases h
  | ok a => exact hk a r h

theorem handlePost_cors (request : Request) (pathname : String) (env : Env)
    (upstream : Upstream) :
    Js.Yields Response.HasCors (handlePost request pathname env upstream) := by
  have hsub : ∀ header ∈ corsHeaders, header ∈ corsHeaders := fun _ h => h
  have hsub2 : ∀ header ∈ corsHeaders,
      header ∈ ("Content-Type", "text/plain") :: corsHeaders := fun _ h => List.mem_cons_of_mem _ h
  unfold handlePost
  repeat' first
    | apply Js.yields_lift
    | apply Js.yields_tryCatch
    | apply Js.yields_ite
    | apply Js.yields_bind
    | intro _
  all_goals first
    | exact Response.new_cors _ _ _ _ hsub (by assumption)
    | exact Except.bind_cors _ _ _ (fun a r h => Response.new_cors _ _ _ r hsub h)
        (by assumption)
    | exact Except.bind_cors _ _ _ (fun a r h => Response.new_cors _ _ _ r hsub2 h)
        (by assumption)

theorem handleGet_cors (pathname : String) (r : Response) (h : handleGet pathname = .ok r) :
    r.HasCors := by
  have hsub : ∀ header ∈ corsHeaders, header ∈ corsHeaders := fun _ h => h
  have hsub2 : ∀ header ∈ corsHeaders,
      header ∈ ("Content-Type", "application/json") :: corsHeaders :=
    fun _ h => List.mem_cons_of_mem _ h
  unfold handleGet at h
  split at h
  · exact Response.new_cors _ _ _ r hsub2 h
  · split at h
    · exact Response.new_cors _ _ _ r hsub2 h
    · split at h
      · exact Response.new_cors _ _ _ r hsub2 h
      · exact Response.new_cors _ _ _ r hsub h

/-- Every response to an `OPTIONS`, `GET` or `POST` request carries the three CORS headers,
whatever the path, the body, the environment and the upstream. -/
theorem fetch_cors_of_routed (request : Request) (env : Env) (upstream : Upstream)
    (startTime endTime : Int)
    (h : request.method = "OPTIONS" ∨ request.method = "GET" ∨ request.method = "POST") :
    ∃ r, ((fetch request env upstream startTime endTime).run).2 = .ok r ∧ r.HasCors := by
  by_cases ho : request.method = "OPTIONS"
  · exact ⟨_, by rw [fetch_options _ _ _ _ _ ho], ⟨fun _ hh => hh⟩⟩
  by_cases hg : request.method = "GET"
  · obtain ⟨r, hr⟩ := handleGet_ok request.pathname
    exact ⟨r, by rw [fetch_get _ _ _ _ _ _ hg hr], handleGet_cors _ r hr⟩
  · have hp : request.method = "POST" := by
      rcases h with h | h | h
      · exact absurd h ho
      · exact absurd h hg
      · exact h
    obtain ⟨t1, r, hr⟩ := handlePost_returns request request.pathname env upstream ⟨[], []⟩
    exact ⟨r, by rw [fetch_post _ _ _ _ _ t1 r hp hr],
      (handlePost_cors request request.pathname env upstream).ok _ _ _ hr⟩

end CheatCli
